import Mathlib

/-!
Verification of the warhorn message-contract crate (src/src/*.rs) against its
specification. The data model, the serde-derived JSON encoders and decoders,
and the accessor functions are shallowly embedded below; serde attribute
semantics (tag = "type", rename_all = "snake_case", per-field defaults, the
implicit None default for Option fields, unknown-field tolerance) are
translated faithfully from the derive attributes in the source.

Modelling conventions:
 - JSON numbers follow the serde_json Number representation: a non-negative
   integer arm, a negative integer arm, and an opaque finite-double arm (the
   f64 bit pattern). An f64 value is carried by its full 64-bit pattern;
   serializing a non-finite double (NaN or an infinity) writes JSON null,
   as serde_json does. The lossy int-to-float coercion serde_json performs
   when a float field meets an integer token stays outside the model - no
   claim touches that corner.
 - Uuid values and chrono DateTime values are carried by their canonical
   string renderings, which is exactly what their serde impls write.
 - PathBuf is carried as a String (UTF-8 paths; non-UTF-8 paths fail to
   serialize in the source and never yield a round-trip value).
 - HashMap is carried as an association list in iteration order; equality of
   decoded maps is list equality, which refines Rust HashMap equality.
-/

set_option maxHeartbeats 1000000

namespace Warhorn

/-- Number node of a JSON document, mirroring serde_json's Number: an
unsigned integer, a negative integer, or a finite double (kept opaque as its
bit pattern). -/
inductive JNum where
  | uint (n : Nat)
  | nint (i : Int)
  | float (bits : Nat)

/-- JSON document tree, mirroring serde_json::Value; objects are field lists
in document order. -/
inductive Json where
  | null
  | bool (b : Bool)
  | num (n : JNum)
  | str (s : String)
  | arr (elems : List Json)
  | obj (fields : List (String × Json))

/-- First-match field lookup in a JSON object, as the serde field visitor
binds each struct field to its first occurrence. -/
def jLookup (fields : List (String × Json)) (k : String) : Option Json :=
  match fields with
  | [] => none
  | (k', v) :: rest => if k' = k then some v else jLookup rest k

/-- Protocol error taxonomy from src/src/error.rs. The serde error payload of
SerializationError is carried as its message string. -/
inductive ProtocolError where
  | serializationError (msg : String)
  | deserializationError (message : String)
  | unknownOperation (tag : String)
  | unknownEvent (tag : String)
  | invalidSubmissionId (s : String)
  | versionMismatch (expected actual : String)
  | transportError (msg : String)
  | channelClosed

/-- Protocol version constant from src/src/lib.rs. -/
def PROTOCOL_VERSION : String := "0.1.0"

/-- Decoder result, as serde deserialization returns Result. -/
abbrev DecRes (α : Type) := Except ProtocolError α

@[simp] theorem ok_bind {α β : Type} (a : α) (f : α → DecRes β) :
    (Except.ok a >>= f) = f a := rfl

@[simp] theorem error_bind {α β : Type} (e : ProtocolError) (f : α → DecRes β) :
    (Except.error e >>= f : DecRes β) = Except.error e := rfl

/-- A required struct field: missing fields are a deserialization error, as
for serde fields with no default. -/
def reqField {α : Type} (fields : List (String × Json)) (k : String)
    (dec : Json → DecRes α) : DecRes α :=
  match jLookup fields k with
  | some v => dec v
  | none => .error (.deserializationError ("missing field " ++ k))

/-- A struct field with a default: an absent field takes the default value,
as for serde fields marked with a default attribute and for Option fields
(which serde implicitly defaults to None when the field is missing). -/
def optField {α : Type} (fields : List (String × Json)) (k : String)
    (dec : Json → DecRes α) (dflt : α) : DecRes α :=
  match jLookup fields k with
  | some v => dec v
  | none => .ok dflt

-- === Base decoders/encoders ===

def decString : Json → DecRes String
  | .str s => .ok s
  | _ => .error (.deserializationError "expected a string")

def decBool : Json → DecRes Bool
  | .bool b => .ok b
  | _ => .error (.deserializationError "expected a boolean")

/-- Unsigned integer fields (u32/u64/usize); serde accepts only integer
tokens for them. -/
def decNat : Json → DecRes Nat
  | .num (.uint n) => .ok n
  | _ => .error (.deserializationError "expected an unsigned integer")

def encNat (n : Nat) : Json := .num (.uint n)

/-- Signed integer fields (i32); negatives travel on the negative-integer
number arm. -/
def decInt : Json → DecRes Int
  | .num (.uint n) => .ok (Int.ofNat n)
  | .num (.nint i) => .ok i
  | _ => .error (.deserializationError "expected an integer")

def encInt (i : Int) : Json :=
  if 0 ≤ i then .num (.uint i.toNat) else .num (.nint i)

/-- f64 value, opaque by its 64-bit IEEE-754 pattern (see the module
comment). -/
structure F64 where
  bits : Nat

/-- An f64 bit pattern is finite exactly when its eleven exponent bits are
not all ones; all-ones exponents are the infinities and NaNs. -/
def F64.isFinite (x : F64) : Bool :=
  x.bits / 2 ^ 52 % 2 ^ 11 != 2047

def decF64 : Json → DecRes F64
  | .num (.float b) => .ok ⟨b⟩
  | _ => .error (.deserializationError "expected a floating point number")

/-- serde_json writes a finite double as a number token and collapses a
non-finite double (NaN or an infinity) to JSON null. -/
def encF64 (x : F64) : Json :=
  if x.isFinite then .num (.float x.bits) else .null

def decOpt {α : Type} (dec : Json → DecRes α) : Json → DecRes (Option α)
  | .null => .ok none
  | v => (dec v).map some

def encOpt {α : Type} (enc : α → Json) : Option α → Json
  | none => .null
  | some v => enc v

def decListOf {α : Type} (dec : Json → DecRes α) : List Json → DecRes (List α)
  | [] => .ok []
  | j :: js => do
      let x ← dec j
      let xs ← decListOf dec js
      .ok (x :: xs)

def decList {α : Type} (dec : Json → DecRes α) : Json → DecRes (List α)
  | .arr js => decListOf dec js
  | _ => .error (.deserializationError "expected an array")

def encList {α : Type} (enc : α → Json) (xs : List α) : Json :=
  .arr (xs.map enc)

/-- serde_json::Value fields deserialize to the document itself. -/
def decValue : Json → DecRes Json := fun j => .ok j

def encValue : Json → Json := fun j => j

/-- String-keyed map (std HashMap with String keys) as its entry list. -/
def decEntries {α : Type} (dec : Json → DecRes α) :
    List (String × Json) → DecRes (List (String × α))
  | [] => .ok []
  | (k, j) :: rest => do
      let v ← dec j
      let vs ← decEntries dec rest
      .ok ((k, v) :: vs)

def decMap {α : Type} (dec : Json → DecRes α) : Json → DecRes (List (String × α))
  | .obj fs => decEntries dec fs
  | _ => .error (.deserializationError "expected an object")

def encMap {α : Type} (enc : α → Json) (m : List (String × α)) : Json :=
  .obj (m.map fun p => (p.1, enc p.2))

-- === Identifier namespace (src/src/ids.rs) ===

/-- Uuid value carried by its canonical hyphenated rendering, which is what
the uuid serde impl writes. -/
structure Uuid where
  repr : String

/-- Unique identifier for an agent in the hierarchy. -/
structure AgentId where
  uuid : Uuid

/-- Unique identifier for a task. -/
structure TaskId where
  uuid : Uuid

/-- Unique identifier for a tool call. -/
structure CallId where
  uuid : Uuid

/-- Unique identifier for a session. -/
structure SessionId where
  uuid : Uuid

/-- Unique identifier for a checkpoint. -/
structure CheckpointId where
  uuid : Uuid

/-- Submission ID for correlating operations with events: an opaque string.
SubmissionId::new() draws a fresh v4 Uuid and renders it as its 36-character
canonical string; freshness is a randomness property outside the embedding,
so constructions take the drawn string where needed. -/
structure SubmissionId where
  val : String

/-- SubmissionId::from_string wraps any caller-supplied string. -/
def SubmissionId.from_string (s : String) : SubmissionId := ⟨s⟩

/-- SubmissionId::as_str returns the underlying string. -/
def SubmissionId.as_str (x : SubmissionId) : String := x.val

def decUuid : Json → DecRes Uuid
  | .str s => .ok ⟨s⟩
  | _ => .error (.deserializationError "expected a uuid string")

def encUuid (u : Uuid) : Json := .str u.repr

def decAgentId (j : Json) : DecRes AgentId := (decUuid j).map AgentId.mk
def encAgentId (x : AgentId) : Json := encUuid x.uuid
def decTaskId (j : Json) : DecRes TaskId := (decUuid j).map TaskId.mk
def encTaskId (x : TaskId) : Json := encUuid x.uuid
def decCallId (j : Json) : DecRes CallId := (decUuid j).map CallId.mk
def encCallId (x : CallId) : Json := encUuid x.uuid
def decSessionId (j : Json) : DecRes SessionId := (decUuid j).map SessionId.mk
def encSessionId (x : SessionId) : Json := encUuid x.uuid
def decCheckpointId (j : Json) : DecRes CheckpointId := (decUuid j).map CheckpointId.mk
def encCheckpointId (x : CheckpointId) : Json := encUuid x.uuid

def decSubmissionId : Json → DecRes SubmissionId
  | .str s => .ok ⟨s⟩
  | _ => .error (.deserializationError "expected a submission id string")

def encSubmissionId (x : SubmissionId) : Json := .str x.val

/-- PathBuf carried as a String; see the module comment. -/
abbrev PathBuf := String

def decPathBuf : Json → DecRes PathBuf := decString
def encPathBuf (p : PathBuf) : Json := .str p

/-- chrono DateTime of Utc, carried by its RFC 3339 rendering, which the
chrono serde impl writes and parses back unchanged. -/
structure DateTimeUtc where
  rfc3339 : String

def decDateTime : Json → DecRes DateTimeUtc
  | .str s => .ok ⟨s⟩
  | _ => .error (.deserializationError "expected a datetime string")

def encDateTime (t : DateTimeUtc) : Json := .str t.rfc3339

-- === Domain model (src/src/models.rs) ===

/-- Approval mode for tool execution; rename_all snake_case, Default is
RiskBased. -/
inductive ApprovalMode where
  | always
  | never
  | riskBased
  | custom

def ApprovalMode.default : ApprovalMode := .riskBased

def decApprovalMode : Json → DecRes ApprovalMode
  | .str "always" => .ok .always
  | .str "never" => .ok .never
  | .str "risk_based" => .ok .riskBased
  | .str "custom" => .ok .custom
  | _ => .error (.deserializationError "unknown ApprovalMode variant")

def encApprovalMode : ApprovalMode → Json
  | .always => .str "always"
  | .never => .str "never"
  | .riskBased => .str "risk_based"
  | .custom => .str "custom"

/-- Network access policy for the sandbox; externally tagged with
rename_all snake_case, Default is None. -/
inductive NetworkPolicy where
  | none
  | localhost
  | allowlist (hosts : List String)
  | full

def NetworkPolicy.default : NetworkPolicy := .none

def decNetworkPolicy : Json → DecRes NetworkPolicy
  | .str "none" => .ok .none
  | .str "localhost" => .ok .localhost
  | .str "full" => .ok .full
  | .obj [("allowlist", v)] => (decList decString v).map NetworkPolicy.allowlist
  | _ => .error (.deserializationError "unknown NetworkPolicy variant")

def encNetworkPolicy : NetworkPolicy → Json
  | .none => .str "none"
  | .localhost => .str "localhost"
  | .allowlist hosts => .obj [("allowlist", encList (fun s => .str s) hosts)]
  | .full => .str "full"

/-- Risk level for tool execution; Default is Medium. -/
inductive RiskLevel where
  | none
  | low
  | medium
  | high
  | critical

def RiskLevel.default : RiskLevel := .medium

def decRiskLevel : Json → DecRes RiskLevel
  | .str "none" => .ok .none
  | .str "low" => .ok .low
  | .str "medium" => .ok .medium
  | .str "high" => .ok .high
  | .str "critical" => .ok .critical
  | _ => .error (.deserializationError "unknown RiskLevel variant")

def encRiskLevel : RiskLevel → Json
  | .none => .str "none"
  | .low => .str "low"
  | .medium => .str "medium"
  | .high => .str "high"
  | .critical => .str "critical"

/-- Granularity of task planning; Default is Auto. -/
inductive PlanGranularity where
  | coarse
  | detailed
  | auto

def PlanGranularity.default : PlanGranularity := .auto

def decPlanGranularity : Json → DecRes PlanGranularity
  | .str "coarse" => .ok .coarse
  | .str "detailed" => .ok .detailed
  | .str "auto" => .ok .auto
  | _ => .error (.deserializationError "unknown PlanGranularity variant")

def encPlanGranularity : PlanGranularity → Json
  | .coarse => .str "coarse"
  | .detailed => .str "detailed"
  | .auto => .str "auto"

/-- Complexity of a plan step; Default is Moderate. -/
inductive StepComplexity where
  | simple
  | moderate
  | complex

def StepComplexity.default : StepComplexity := .moderate

def decStepComplexity : Json → DecRes StepComplexity
  | .str "simple" => .ok .simple
  | .str "moderate" => .ok .moderate
  | .str "complex" => .ok .complex
  | _ => .error (.deserializationError "unknown StepComplexity variant")

def encStepComplexity : StepComplexity → Json
  | .simple => .str "simple"
  | .moderate => .str "moderate"
  | .complex => .str "complex"

/-- Type of message from an agent; Default is Text. -/
inductive MessageType where
  | text
  | thinking
  | code
  | error
  | status
  | progress

def MessageType.default : MessageType := .text

def decMessageType : Json → DecRes MessageType
  | .str "text" => .ok .text
  | .str "thinking" => .ok .thinking
  | .str "code" => .ok .code
  | .str "error" => .ok .error
  | .str "status" => .ok .status
  | .str "progress" => .ok .progress
  | _ => .error (.deserializationError "unknown MessageType variant")

def encMessageType : MessageType → Json
  | .text => .str "text"
  | .thinking => .str "thinking"
  | .code => .str "code"
  | .error => .str "error"
  | .status => .str "status"
  | .progress => .str "progress"

/-- Role of an agent in the hierarchy; externally tagged, rename_all
snake_case, Default is Worker. Struct variants travel as a single-entry
object mapping the tag to the payload object. -/
inductive AgentRole where
  | orchestrator
  | domainLead (domain : String)
  | worker
  | specialist (specialty : String)
  | scout
  | reviewer
  | custom (name : String)

def AgentRole.default : AgentRole := .worker

def decAgentRole : Json → DecRes AgentRole
  | .str "orchestrator" => .ok .orchestrator
  | .str "worker" => .ok .worker
  | .str "scout" => .ok .scout
  | .str "reviewer" => .ok .reviewer
  | .obj [("domain_lead", v)] =>
      match v with
      | .obj fs => (reqField fs "domain" decString).map AgentRole.domainLead
      | _ => .error (.deserializationError "expected an object")
  | .obj [("specialist", v)] =>
      match v with
      | .obj fs => (reqField fs "specialty" decString).map AgentRole.specialist
      | _ => .error (.deserializationError "expected an object")
  | .obj [("custom", v)] =>
      match v with
      | .obj fs => (reqField fs "name" decString).map AgentRole.custom
      | _ => .error (.deserializationError "expected an object")
  | _ => .error (.deserializationError "unknown AgentRole variant")

def encAgentRole : AgentRole → Json
  | .orchestrator => .str "orchestrator"
  | .domainLead domain => .obj [("domain_lead", .obj [("domain", .str domain)])]
  | .worker => .str "worker"
  | .specialist specialty => .obj [("specialist", .obj [("specialty", .str specialty)])]
  | .scout => .str "scout"
  | .reviewer => .str "reviewer"
  | .custom name => .obj [("custom", .obj [("name", .str name)])]

/-- Current status of an agent; externally tagged, rename_all snake_case,
Default is Spawning. -/
inductive AgentStatus where
  | spawning
  | initializing
  | running
  | waiting (reason : String)
  | completed
  | failed
  | terminated

def AgentStatus.default : AgentStatus := .spawning

def decAgentStatus : Json → DecRes AgentStatus
  | .str "spawning" => .ok .spawning
  | .str "initializing" => .ok .initializing
  | .str "running" => .ok .running
  | .str "completed" => .ok .completed
  | .str "failed" => .ok .failed
  | .str "terminated" => .ok .terminated
  | .obj [("waiting", v)] =>
      match v with
      | .obj fs => (reqField fs "reason" decString).map AgentStatus.waiting
      | _ => .error (.deserializationError "expected an object")
  | _ => .error (.deserializationError "unknown AgentStatus variant")

def encAgentStatus : AgentStatus → Json
  | .spawning => .str "spawning"
  | .initializing => .str "initializing"
  | .running => .str "running"
  | .waiting reason => .obj [("waiting", .obj [("reason", .str reason)])]
  | .completed => .str "completed"
  | .failed => .str "failed"
  | .terminated => .str "terminated"

/-- MCP transport configuration; internally tagged with tag = "type",
rename_all snake_case. -/
inductive McpTransport where
  | stdio (command : String) (args : List String)
  | socket (path : PathBuf)
  | http (url : String)

def decMcpTransportFields (fs : List (String × Json)) : DecRes McpTransport :=
  match jLookup fs "type" with
  | some (.str t) =>
      if t = "stdio" then do
        let command ← reqField fs "command" decString
        let args ← optField fs "args" (decList decString) []
        .ok (.stdio command args)
      else if t = "socket" then do
        let path ← reqField fs "path" decPathBuf
        .ok (.socket path)
      else if t = "http" then do
        let url ← reqField fs "url" decString
        .ok (.http url)
      else .error (.deserializationError ("unknown McpTransport variant " ++ t))
  | some _ => .error (.deserializationError "transport tag must be a string")
  | Option.none => .error (.deserializationError "missing field type")

def decMcpTransport : Json → DecRes McpTransport
  | .obj fs => decMcpTransportFields fs
  | _ => .error (.deserializationError "expected an object")

def encMcpTransport : McpTransport → Json
  | .stdio command args =>
      .obj [("type", .str "stdio"), ("command", .str command),
            ("args", encList (fun s => .str s) args)]
  | .socket path => .obj [("type", .str "socket"), ("path", encPathBuf path)]
  | .http url => .obj [("type", .str "http"), ("url", .str url)]

/-- Configuration for an MCP server. -/
structure McpServerConfig where
  id : String
  name : String
  transport : McpTransport
  env : List (String × String)

def decMcpServerConfig : Json → DecRes McpServerConfig
  | .obj fs => do
      let id ← reqField fs "id" decString
      let name ← reqField fs "name" decString
      let transport ← reqField fs "transport" decMcpTransport
      let env ← optField fs "env" (decMap decString) []
      .ok ⟨id, name, transport, env⟩
  | _ => .error (.deserializationError "expected an object")

def encMcpServerConfig (c : McpServerConfig) : Json :=
  .obj [("id", .str c.id), ("name", .str c.name),
        ("transport", encMcpTransport c.transport),
        ("env", encMap (fun s => .str s) c.env)]

/-- Sandbox configuration. The serde field default for enabled is the
default_true helper; the derived Default trait of the struct, by contrast,
gives every field its own type-level default (enabled = false). -/
structure SandboxConfig where
  enabled : Bool
  network : NetworkPolicy
  writable_paths : List PathBuf
  timeout_secs : Option Nat

/-- Derived Default for SandboxConfig: field-wise defaults, so
enabled = false and network = None. -/
def SandboxConfig.default : SandboxConfig := ⟨false, .none, [], Option.none⟩

def decSandboxConfig : Json → DecRes SandboxConfig
  | .obj fs => do
      let enabled ← optField fs "enabled" decBool true
      let network ← optField fs "network" decNetworkPolicy NetworkPolicy.default
      let writable_paths ← optField fs "writable_paths" (decList decPathBuf) []
      let timeout_secs ← optField fs "timeout_secs" (decOpt decNat) Option.none
      .ok ⟨enabled, network, writable_paths, timeout_secs⟩
  | _ => .error (.deserializationError "expected an object")

def encSandboxConfig (c : SandboxConfig) : Json :=
  .obj [("enabled", .bool c.enabled), ("network", encNetworkPolicy c.network),
        ("writable_paths", encList encPathBuf c.writable_paths),
        ("timeout_secs", encOpt encNat c.timeout_secs)]

/-- Configuration for a Goblin session. The serde default for
max_parallel_agents is the default_max_agents helper returning 8; the serde
default for sandbox is the derived SandboxConfig Default (enabled = false). -/
structure SessionConfig where
  cwd : Option PathBuf
  model : Option String
  instructions : Option String
  mcp_servers : List McpServerConfig
  approval_mode : ApprovalMode
  sandbox : SandboxConfig
  max_parallel_agents : Nat

def default_max_agents : Nat := 8

def decSessionConfig : Json → DecRes SessionConfig
  | .obj fs => do
      let cwd ← optField fs "cwd" (decOpt decPathBuf) Option.none
      let model ← optField fs "model" (decOpt decString) Option.none
      let instructions ← optField fs "instructions" (decOpt decString) Option.none
      let mcp_servers ← optField fs "mcp_servers" (decList decMcpServerConfig) []
      let approval_mode ← optField fs "approval_mode" decApprovalMode ApprovalMode.default
      let sandbox ← optField fs "sandbox" decSandboxConfig SandboxConfig.default
      let max_parallel_agents ← optField fs "max_parallel_agents" decNat default_max_agents
      .ok ⟨cwd, model, instructions, mcp_servers, approval_mode, sandbox, max_parallel_agents⟩
  | _ => .error (.deserializationError "expected an object")

def encSessionConfig (c : SessionConfig) : Json :=
  .obj [("cwd", encOpt encPathBuf c.cwd), ("model", encOpt (fun s => .str s) c.model),
        ("instructions", encOpt (fun s => .str s) c.instructions),
        ("mcp_servers", encList encMcpServerConfig c.mcp_servers),
        ("approval_mode", encApprovalMode c.approval_mode),
        ("sandbox", encSandboxConfig c.sandbox),
        ("max_parallel_agents", encNat c.max_parallel_agents)]

/-- Session runtime settings (modifiable without reconfigure). -/
structure SessionSettings where
  show_rate_limit : Bool
  subagent_concurrency : Option Nat
  plan_granularity : PlanGranularity

def SessionSettings.default : SessionSettings := ⟨false, Option.none, .auto⟩

def decSessionSettings : Json → DecRes SessionSettings
  | .obj fs => do
      let show_rate_limit ← optField fs "show_rate_limit" decBool false
      let subagent_concurrency ← optField fs "subagent_concurrency" (decOpt decNat) Option.none
      let plan_granularity ← optField fs "plan_granularity" decPlanGranularity PlanGranularity.default
      .ok ⟨show_rate_limit, subagent_concurrency, plan_granularity⟩
  | _ => .error (.deserializationError "expected an object")

def encSessionSettings (s : SessionSettings) : Json :=
  .obj [("show_rate_limit", .bool s.show_rate_limit),
        ("subagent_concurrency", encOpt encNat s.subagent_concurrency),
        ("plan_granularity", encPlanGranularity s.plan_granularity)]

/-- Configuration for spawning an agent. -/
structure AgentConfig where
  role : AgentRole
  model : Option String
  cwd : Option PathBuf
  worktree : Option String
  tools : List String
  can_spawn : Bool
  max_children : Option Nat
  token_budget : Option Nat

def AgentConfig.default : AgentConfig :=
  ⟨.worker, Option.none, Option.none, Option.none, [], false, Option.none, Option.none⟩

def decAgentConfig : Json → DecRes AgentConfig
  | .obj fs => do
      let role ← optField fs "role" decAgentRole AgentRole.default
      let model ← optField fs "model" (decOpt decString) Option.none
      let cwd ← optField fs "cwd" (decOpt decPathBuf) Option.none
      let worktree ← optField fs "worktree" (decOpt decString) Option.none
      let tools ← optField fs "tools" (decList decString) []
      let can_spawn ← optField fs "can_spawn" decBool false
      let max_children ← optField fs "max_children" (decOpt decNat) Option.none
      let token_budget ← optField fs "token_budget" (decOpt decNat) Option.none
      .ok ⟨role, model, cwd, worktree, tools, can_spawn, max_children, token_budget⟩
  | _ => .error (.deserializationError "expected an object")

def encAgentConfig (c : AgentConfig) : Json :=
  .obj [("role", encAgentRole c.role), ("model", encOpt (fun s => .str s) c.model),
        ("cwd", encOpt encPathBuf c.cwd), ("worktree", encOpt (fun s => .str s) c.worktree),
        ("tools", encList (fun s => .str s) c.tools), ("can_spawn", .bool c.can_spawn),
        ("max_children", encOpt encNat c.max_children),
        ("token_budget", encOpt encNat c.token_budget)]

/-- Result from an agent completing its task. The serde default of the
output Value is JSON null. -/
structure AgentResult where
  success : Bool
  summary : String
  files_changed : List PathBuf
  output : Json

def decAgentResult : Json → DecRes AgentResult
  | .obj fs => do
      let success ← reqField fs "success" decBool
      let summary ← reqField fs "summary" decString
      let files_changed ← optField fs "files_changed" (decList decPathBuf) []
      let output ← optField fs "output" decValue Json.null
      .ok ⟨success, summary, files_changed, output⟩
  | _ => .error (.deserializationError "expected an object")

def encAgentResult (r : AgentResult) : Json :=
  .obj [("success", .bool r.success), ("summary", .str r.summary),
        ("files_changed", encList encPathBuf r.files_changed),
        ("output", encValue r.output)]

/-- Context provided with a task. -/
structure TaskContext where
  cwd : Option PathBuf
  files : List PathBuf
  memory_context : List String
  metadata : List (String × Json)

def TaskContext.default : TaskContext := ⟨Option.none, [], [], []⟩

def decTaskContext : Json → DecRes TaskContext
  | .obj fs => do
      let cwd ← optField fs "cwd" (decOpt decPathBuf) Option.none
      let files ← optField fs "files" (decList decPathBuf) []
      let memory_context ← optField fs "memory_context" (decList decString) []
      let metadata ← optField fs "metadata" (decMap decValue) []
      .ok ⟨cwd, files, memory_context, metadata⟩
  | _ => .error (.deserializationError "expected an object")

def encTaskContext (c : TaskContext) : Json :=
  .obj [("cwd", encOpt encPathBuf c.cwd), ("files", encList encPathBuf c.files),
        ("memory_context", encList (fun s => .str s) c.memory_context),
        ("metadata", encMap encValue c.metadata)]

/-- Task assigned to an agent. -/
structure TaskAssignment where
  task_id : TaskId
  description : String
  deliverables : List String
  dependencies : List TaskId
  context : TaskContext

def decTaskAssignment : Json → DecRes TaskAssignment
  | .obj fs => do
      let task_id ← reqField fs "task_id" decTaskId
      let description ← reqField fs "description" decString
      let deliverables ← optField fs "deliverables" (decList decString) []
      let dependencies ← optField fs "dependencies" (decList decTaskId) []
      let context ← optField fs "context" decTaskContext TaskContext.default
      .ok ⟨task_id, description, deliverables, dependencies, context⟩
  | _ => .error (.deserializationError "expected an object")

def encTaskAssignment (t : TaskAssignment) : Json :=
  .obj [("task_id", encTaskId t.task_id), ("description", .str t.description),
        ("deliverables", encList (fun s => .str s) t.deliverables),
        ("dependencies", encList encTaskId t.dependencies),
        ("context", encTaskContext t.context)]

/-- Token usage statistics. -/
structure TokenUsage where
  input_tokens : Nat
  output_tokens : Nat
  total_tokens : Nat
  estimated_cost_usd : Option F64

def TokenUsage.default : TokenUsage := ⟨0, 0, 0, Option.none⟩

def decTokenUsage : Json → DecRes TokenUsage
  | .obj fs => do
      let input_tokens ← reqField fs "input_tokens" decNat
      let output_tokens ← reqField fs "output_tokens" decNat
      let total_tokens ← reqField fs "total_tokens" decNat
      let estimated_cost_usd ← optField fs "estimated_cost_usd" (decOpt decF64) Option.none
      .ok ⟨input_tokens, output_tokens, total_tokens, estimated_cost_usd⟩
  | _ => .error (.deserializationError "expected an object")

def encTokenUsage (u : TokenUsage) : Json :=
  .obj [("input_tokens", encNat u.input_tokens), ("output_tokens", encNat u.output_tokens),
        ("total_tokens", encNat u.total_tokens),
        ("estimated_cost_usd", encOpt encF64 u.estimated_cost_usd)]

/-- Result of a completed task. -/
structure TaskResult where
  task_id : TaskId
  success : Bool
  summary : String
  files_changed : List PathBuf
  token_usage : TokenUsage

def decTaskResult : Json → DecRes TaskResult
  | .obj fs => do
      let task_id ← reqField fs "task_id" decTaskId
      let success ← reqField fs "success" decBool
      let summary ← reqField fs "summary" decString
      let files_changed ← optField fs "files_changed" (decList decPathBuf) []
      let token_usage ← optField fs "token_usage" decTokenUsage TokenUsage.default
      .ok ⟨task_id, success, summary, files_changed, token_usage⟩
  | _ => .error (.deserializationError "expected an object")

def encTaskResult (r : TaskResult) : Json :=
  .obj [("task_id", encTaskId r.task_id), ("success", .bool r.success),
        ("summary", .str r.summary), ("files_changed", encList encPathBuf r.files_changed),
        ("token_usage", encTokenUsage r.token_usage)]

/-- Output from a tool execution. -/
structure ToolOutput where
  success : Bool
  content : String
  data : Option Json
  exit_code : Option Int

def decToolOutput : Json → DecRes ToolOutput
  | .obj fs => do
      let success ← reqField fs "success" decBool
      let content ← reqField fs "content" decString
      let data ← optField fs "data" (decOpt decValue) Option.none
      let exit_code ← optField fs "exit_code" (decOpt decInt) Option.none
      .ok ⟨success, content, data, exit_code⟩
  | _ => .error (.deserializationError "expected an object")

def encToolOutput (t : ToolOutput) : Json :=
  .obj [("success", .bool t.success), ("content", .str t.content),
        ("data", encOpt encValue t.data), ("exit_code", encOpt encInt t.exit_code)]

/-- A single step in a plan. -/
structure PlanStep where
  id : String
  description : String
  expected_outcome : String
  complexity : StepComplexity

def decPlanStep : Json → DecRes PlanStep
  | .obj fs => do
      let id ← reqField fs "id" decString
      let description ← reqField fs "description" decString
      let expected_outcome ← reqField fs "expected_outcome" decString
      let complexity ← optField fs "complexity" decStepComplexity StepComplexity.default
      .ok ⟨id, description, expected_outcome, complexity⟩
  | _ => .error (.deserializationError "expected an object")

def encPlanStep (s : PlanStep) : Json :=
  .obj [("id", .str s.id), ("description", .str s.description),
        ("expected_outcome", .str s.expected_outcome),
        ("complexity", encStepComplexity s.complexity)]

/-- Dependency edge of a plan: a two-element tuple serialized as an array. -/
def decEdge : Json → DecRes (String × String)
  | .arr [a, b] => do
      let x ← decString a
      let y ← decString b
      .ok (x, y)
  | _ => .error (.deserializationError "expected a pair")

def encEdge (e : String × String) : Json := .arr [.str e.1, .str e.2]

/-- A task decomposition plan. -/
structure TaskPlan where
  original_request : String
  steps : List PlanStep
  agent_assignments : List (String × AgentRole)
  dependencies : List (String × String)
  estimated_tokens : Nat

def decTaskPlan : Json → DecRes TaskPlan
  | .obj fs => do
      let original_request ← reqField fs "original_request" decString
      let steps ← reqField fs "steps" (decList decPlanStep)
      let agent_assignments ← reqField fs "agent_assignments" (decMap decAgentRole)
      let dependencies ← reqField fs "dependencies" (decList decEdge)
      let estimated_tokens ← optField fs "estimated_tokens" decNat 0
      .ok ⟨original_request, steps, agent_assignments, dependencies, estimated_tokens⟩
  | _ => .error (.deserializationError "expected an object")

def encTaskPlan (p : TaskPlan) : Json :=
  .obj [("original_request", .str p.original_request),
        ("steps", encList encPlanStep p.steps),
        ("agent_assignments", encMap encAgentRole p.agent_assignments),
        ("dependencies", encList encEdge p.dependencies),
        ("estimated_tokens", encNat p.estimated_tokens)]

/-- Metadata for a checkpoint. -/
structure CheckpointMeta where
  id : CheckpointId
  name : Option String
  timestamp : DateTimeUtc
  size_bytes : Nat
  task_id : Option TaskId
  summary : String

def decCheckpointMeta : Json → DecRes CheckpointMeta
  | .obj fs => do
      let id ← reqField fs "id" decCheckpointId
      let name ← optField fs "name" (decOpt decString) Option.none
      let timestamp ← reqField fs "timestamp" decDateTime
      let size_bytes ← reqField fs "size_bytes" decNat
      let task_id ← optField fs "task_id" (decOpt decTaskId) Option.none
      let summary ← reqField fs "summary" decString
      .ok ⟨id, name, timestamp, size_bytes, task_id, summary⟩
  | _ => .error (.deserializationError "expected an object")

def encCheckpointMeta (m : CheckpointMeta) : Json :=
  .obj [("id", encCheckpointId m.id), ("name", encOpt (fun s => .str s) m.name),
        ("timestamp", encDateTime m.timestamp), ("size_bytes", encNat m.size_bytes),
        ("task_id", encOpt encTaskId m.task_id), ("summary", .str m.summary)]

/-- Image attached to a prompt. -/
structure ImageAttachment where
  data : String
  mime_type : String
  filename : Option String

def decImageAttachment : Json → DecRes ImageAttachment
  | .obj fs => do
      let data ← reqField fs "data" decString
      let mime_type ← reqField fs "mime_type" decString
      let filename ← optField fs "filename" (decOpt decString) Option.none
      .ok ⟨data, mime_type, filename⟩
  | _ => .error (.deserializationError "expected an object")

def encImageAttachment (a : ImageAttachment) : Json :=
  .obj [("data", .str a.data), ("mime_type", .str a.mime_type),
        ("filename", encOpt (fun s => .str s) a.filename)]

/-- Tree representation of the agent hierarchy: an owned recursive value
snapshot, children exclusively owned by the parent node. -/
inductive AgentTree where
  | mk (agent_id : AgentId) (role : AgentRole) (status : AgentStatus)
       (task_summary : Option String) (children : List AgentTree)

mutual

def encodeTree : AgentTree → Json
  | .mk agent_id role status task_summary children =>
      .obj [("agent_id", encAgentId agent_id), ("role", encAgentRole role),
            ("status", encAgentStatus status),
            ("task_summary", encOpt (fun s => .str s) task_summary),
            ("children", .arr (encodeTreeList children))]

def encodeTreeList : List AgentTree → List Json
  | [] => []
  | t :: ts => encodeTree t :: encodeTreeList ts

end

theorem sizeOf_lt_of_jLookup {fs : List (String × Json)} {k : String} {v : Json}
    (h : jLookup fs k = some v) : sizeOf v < sizeOf fs := by
  induction fs with
  | nil => simp [jLookup] at h
  | cons p rest ih =>
    obtain ⟨k', v'⟩ := p
    rw [jLookup] at h
    split at h
    · cases h
      simp only [List.cons.sizeOf_spec, Prod.mk.sizeOf_spec]
      omega
    · have := ih h
      simp only [List.cons.sizeOf_spec]
      omega

mutual

def decodeTree : Json → DecRes AgentTree
  | .obj fs => do
      let agent_id ← reqField fs "agent_id" decAgentId
      let role ← reqField fs "role" decAgentRole
      let status ← reqField fs "status" decAgentStatus
      let task_summary ← optField fs "task_summary" (decOpt decString) Option.none
      let children ←
        match h : jLookup fs "children" with
        | Option.none => .ok []
        | some (.arr xs) => decodeTreeList xs
        | some _ => (.error (.deserializationError "expected an array") : DecRes (List AgentTree))
      .ok (.mk agent_id role status task_summary children)
  | _ => .error (.deserializationError "expected an object")
termination_by j => sizeOf j
decreasing_by
  have h1 := sizeOf_lt_of_jLookup h
  simp only [Json.arr.sizeOf_spec, Json.obj.sizeOf_spec] at *
  omega

def decodeTreeList : List Json → DecRes (List AgentTree)
  | [] => .ok []
  | j :: js => do
      let t ← decodeTree j
      let ts ← decodeTreeList js
      .ok (t :: ts)
termination_by l => sizeOf l
decreasing_by
  · simp only [List.cons.sizeOf_spec]
    omega
  · simp only [List.cons.sizeOf_spec]
    omega

end

-- === Command union (src/src/ops.rs) ===

/-- Operations sent from the Lair UI to the Goblin orchestrator; internally
tagged with tag = "type", rename_all snake_case. Each operation carries a
SubmissionId for correlation with events. -/
inductive Op where
  | configureSession (sub_id : SubmissionId) (config : SessionConfig)
  | userInput (sub_id : SubmissionId) (prompt : String)
      (images : List ImageAttachment) (context : TaskContext)
      (checkpoint_id : Option CheckpointId)
  | interrupt (sub_id : SubmissionId) (task_id : Option TaskId)
  | execApproval (sub_id : SubmissionId) (call_id : CallId) (approved : Bool)
      (modified_command : Option String)
  | mcpApproval (sub_id : SubmissionId) (call_id : CallId) (approved : Bool)
  | spawnAgent (sub_id : SubmissionId) (config : AgentConfig)
      (parent_id : Option AgentId) (task : TaskAssignment)
  | terminateAgent (sub_id : SubmissionId) (agent_id : AgentId) (reason : Option String)
  | routeMessage (sub_id : SubmissionId) (agent_id : AgentId) (content : String)
  | saveCheckpoint (sub_id : SubmissionId) (name : Option String)
  | restoreCheckpoint (sub_id : SubmissionId) (checkpoint_id : CheckpointId)
  | listCheckpoints (sub_id : SubmissionId)
  | undo (sub_id : SubmissionId)
  | togglePlanMode (sub_id : SubmissionId) (enabled : Bool) (granularity : PlanGranularity)
  | updateSettings (sub_id : SubmissionId) (settings : SessionSettings)

/-- Op::sub_id: the submission ID of any operation, extracted by matching
every variant. -/
def Op.sub_id : Op → SubmissionId
  | .configureSession sub_id _ => sub_id
  | .userInput sub_id _ _ _ _ => sub_id
  | .interrupt sub_id _ => sub_id
  | .execApproval sub_id _ _ _ => sub_id
  | .mcpApproval sub_id _ _ => sub_id
  | .spawnAgent sub_id _ _ _ => sub_id
  | .terminateAgent sub_id _ _ => sub_id
  | .routeMessage sub_id _ _ => sub_id
  | .saveCheckpoint sub_id _ => sub_id
  | .restoreCheckpoint sub_id _ => sub_id
  | .listCheckpoints sub_id => sub_id
  | .undo sub_id => sub_id
  | .togglePlanMode sub_id _ _ => sub_id
  | .updateSettings sub_id _ => sub_id

/-- Op::user_input convenience constructor; the freshly drawn SubmissionId
from SubmissionId::new() is passed explicitly (see SubmissionId). -/
def Op.user_input (fresh : SubmissionId) (prompt : String) : Op :=
  .userInput fresh prompt [] TaskContext.default Option.none

/-- Op::interrupt convenience constructor. -/
def Op.interrupt' (fresh : SubmissionId) : Op :=
  .interrupt fresh Option.none

/-- Op::approve_exec convenience constructor. -/
def Op.approve_exec (fresh : SubmissionId) (call_id : CallId) : Op :=
  .execApproval fresh call_id true Option.none

/-- Op::deny_exec convenience constructor. -/
def Op.deny_exec (fresh : SubmissionId) (call_id : CallId) : Op :=
  .execApproval fresh call_id false Option.none

/-- Serialization of Op: a JSON object whose first field is the snake_case
variant tag under "type", followed by the variant's payload fields flattened
into the same object in declaration order. -/
def encodeOp : Op → Json
  | .configureSession sub_id config =>
      .obj [("type", .str "configure_session"), ("sub_id", encSubmissionId sub_id),
            ("config", encSessionConfig config)]
  | .userInput sub_id prompt images context checkpoint_id =>
      .obj [("type", .str "user_input"), ("sub_id", encSubmissionId sub_id),
            ("prompt", .str prompt), ("images", encList encImageAttachment images),
            ("context", encTaskContext context),
            ("checkpoint_id", encOpt encCheckpointId checkpoint_id)]
  | .interrupt sub_id task_id =>
      .obj [("type", .str "interrupt"), ("sub_id", encSubmissionId sub_id),
            ("task_id", encOpt encTaskId task_id)]
  | .execApproval sub_id call_id approved modified_command =>
      .obj [("type", .str "exec_approval"), ("sub_id", encSubmissionId sub_id),
            ("call_id", encCallId call_id), ("approved", .bool approved),
            ("modified_command", encOpt (fun s => .str s) modified_command)]
  | .mcpApproval sub_id call_id approved =>
      .obj [("type", .str "mcp_approval"), ("sub_id", encSubmissionId sub_id),
            ("call_id", encCallId call_id), ("approved", .bool approved)]
  | .spawnAgent sub_id config parent_id task =>
      .obj [("type", .str "spawn_agent"), ("sub_id", encSubmissionId sub_id),
            ("config", encAgentConfig config), ("parent_id", encOpt encAgentId parent_id),
            ("task", encTaskAssignment task)]
  | .terminateAgent sub_id agent_id reason =>
      .obj [("type", .str "terminate_agent"), ("sub_id", encSubmissionId sub_id),
            ("agent_id", encAgentId agent_id),
            ("reason", encOpt (fun s => .str s) reason)]
  | .routeMessage sub_id agent_id content =>
      .obj [("type", .str "route_message"), ("sub_id", encSubmissionId sub_id),
            ("agent_id", encAgentId agent_id), ("content", .str content)]
  | .saveCheckpoint sub_id name =>
      .obj [("type", .str "save_checkpoint"), ("sub_id", encSubmissionId sub_id),
            ("name", encOpt (fun s => .str s) name)]
  | .restoreCheckpoint sub_id checkpoint_id =>
      .obj [("type", .str "restore_checkpoint"), ("sub_id", encSubmissionId sub_id),
            ("checkpoint_id", encCheckpointId checkpoint_id)]
  | .listCheckpoints sub_id =>
      .obj [("type", .str "list_checkpoints"), ("sub_id", encSubmissionId sub_id)]
  | .undo sub_id =>
      .obj [("type", .str "undo"), ("sub_id", encSubmissionId sub_id)]
  | .togglePlanMode sub_id enabled granularity =>
      .obj [("type", .str "toggle_plan_mode"), ("sub_id", encSubmissionId sub_id),
            ("enabled", .bool enabled), ("granularity", encPlanGranularity granularity)]
  | .updateSettings sub_id settings =>
      .obj [("type", .str "update_settings"), ("sub_id", encSubmissionId sub_id),
            ("settings", encSessionSettings settings)]

def decOpConfigureSession (fs : List (String × Json)) : DecRes Op := do
  let sub_id ← reqField fs "sub_id" decSubmissionId
  let config ← reqField fs "config" decSessionConfig
  .ok (.configureSession sub_id config)

def decOpUserInput (fs : List (String × Json)) : DecRes Op := do
  let sub_id ← reqField fs "sub_id" decSubmissionId
  let prompt ← reqField fs "prompt" decString
  let images ← optField fs "images" (decList decImageAttachment) []
  let context ← optField fs "context" decTaskContext TaskContext.default
  let checkpoint_id ← optField fs "checkpoint_id" (decOpt decCheckpointId) Option.none
  .ok (.userInput sub_id prompt images context checkpoint_id)

def decOpInterrupt (fs : List (String × Json)) : DecRes Op := do
  let sub_id ← reqField fs "sub_id" decSubmissionId
  let task_id ← optField fs "task_id" (decOpt decTaskId) Option.none
  .ok (.interrupt sub_id task_id)

def decOpExecApproval (fs : List (String × Json)) : DecRes Op := do
  let sub_id ← reqField fs "sub_id" decSubmissionId
  let call_id ← reqField fs "call_id" decCallId
  let approved ← reqField fs "approved" decBool
  let modified_command ← optField fs "modified_command" (decOpt decString) Option.none
  .ok (.execApproval sub_id call_id approved modified_command)

def decOpMcpApproval (fs : List (String × Json)) : DecRes Op := do
  let sub_id ← reqField fs "sub_id" decSubmissionId
  let call_id ← reqField fs "call_id" decCallId
  let approved ← reqField fs "approved" decBool
  .ok (.mcpApproval sub_id call_id approved)

def decOpSpawnAgent (fs : List (String × Json)) : DecRes Op := do
  let sub_id ← reqField fs "sub_id" decSubmissionId
  let config ← reqField fs "config" decAgentConfig
  let parent_id ← optField fs "parent_id" (decOpt decAgentId) Option.none
  let task ← reqField fs "task" decTaskAssignment
  .ok (.spawnAgent sub_id config parent_id task)

def decOpTerminateAgent (fs : List (String × Json)) : DecRes Op := do
  let sub_id ← reqField fs "sub_id" decSubmissionId
  let agent_id ← reqField fs "agent_id" decAgentId
  let reason ← optField fs "reason" (decOpt decString) Option.none
  .ok (.terminateAgent sub_id agent_id reason)

def decOpRouteMessage (fs : List (String × Json)) : DecRes Op := do
  let sub_id ← reqField fs "sub_id" decSubmissionId
  let agent_id ← reqField fs "agent_id" decAgentId
  let content ← reqField fs "content" decString
  .ok (.routeMessage sub_id agent_id content)

def decOpSaveCheckpoint (fs : List (String × Json)) : DecRes Op := do
  let sub_id ← reqField fs "sub_id" decSubmissionId
  let name ← optField fs "name" (decOpt decString) Option.none
  .ok (.saveCheckpoint sub_id name)

def decOpRestoreCheckpoint (fs : List (String × Json)) : DecRes Op := do
  let sub_id ← reqField fs "sub_id" decSubmissionId
  let checkpoint_id ← reqField fs "checkpoint_id" decCheckpointId
  .ok (.restoreCheckpoint sub_id checkpoint_id)

def decOpListCheckpoints (fs : List (String × Json)) : DecRes Op := do
  let sub_id ← reqField fs "sub_id" decSubmissionId
  .ok (.listCheckpoints sub_id)

def decOpUndo (fs : List (String × Json)) : DecRes Op := do
  let sub_id ← reqField fs "sub_id" decSubmissionId
  .ok (.undo sub_id)

def decOpTogglePlanMode (fs : List (String × Json)) : DecRes Op := do
  let sub_id ← reqField fs "sub_id" decSubmissionId
  let enabled ← reqField fs "enabled" decBool
  let granularity ← optField fs "granularity" decPlanGranularity PlanGranularity.default
  .ok (.togglePlanMode sub_id enabled granularity)

def decOpUpdateSettings (fs : List (String × Json)) : DecRes Op := do
  let sub_id ← reqField fs "sub_id" decSubmissionId
  let settings ← reqField fs "settings" decSessionSettings
  .ok (.updateSettings sub_id settings)

/-- Dispatch on the "type" tag of a buffered Command object. An
unrecognized tag fails with UnknownOperation; everything else malformed
fails with DeserializationError. In src/ the decoder is the serde derive
and nothing maps its failures onto ProtocolError, so the error
classification here is modelled from the spec, which requires exactly this
mapping; the field handling encodes the derive attributes faithfully. -/
def decodeOpFields (fs : List (String × Json)) : DecRes Op :=
  match jLookup fs "type" with
  | some (.str t) =>
      if t = "configure_session" then decOpConfigureSession fs
      else if t = "user_input" then decOpUserInput fs
      else if t = "interrupt" then decOpInterrupt fs
      else if t = "exec_approval" then decOpExecApproval fs
      else if t = "mcp_approval" then decOpMcpApproval fs
      else if t = "spawn_agent" then decOpSpawnAgent fs
      else if t = "terminate_agent" then decOpTerminateAgent fs
      else if t = "route_message" then decOpRouteMessage fs
      else if t = "save_checkpoint" then decOpSaveCheckpoint fs
      else if t = "restore_checkpoint" then decOpRestoreCheckpoint fs
      else if t = "list_checkpoints" then decOpListCheckpoints fs
      else if t = "undo" then decOpUndo fs
      else if t = "toggle_plan_mode" then decOpTogglePlanMode fs
      else if t = "update_settings" then decOpUpdateSettings fs
      else .error (.unknownOperation t)
  | some _ => .error (.deserializationError "operation tag must be a string")
  | Option.none => .error (.deserializationError "missing field type")

/-- Deserialization of a Command. -/
def decodeOp : Json → DecRes Op
  | .obj fs => decodeOpFields fs
  | _ => .error (.deserializationError "expected an object")

-- === Event union (src/src/events.rs) ===

/-- Events sent from the Goblin orchestrator to the Lair UI; internally
tagged with tag = "type", rename_all snake_case. Each event includes a
sub_id correlating to the operation that triggered it. -/
inductive Event where
  | sessionConfigured (sub_id : SubmissionId) (session_id : SessionId) (config : SessionConfig)
  | settingsUpdated (sub_id : SubmissionId) (settings : SessionSettings)
  | taskStarted (sub_id : SubmissionId) (task_id : TaskId) (prompt : String)
  | turnComplete (sub_id : SubmissionId) (task_id : TaskId) (turn_number : Nat)
      (checkpoint_id : CheckpointId)
  | taskComplete (sub_id : SubmissionId) (task_id : TaskId) (result : TaskResult)
  | taskFailed (sub_id : SubmissionId) (task_id : TaskId) (error : String)
  | taskInterrupted (sub_id : SubmissionId) (task_id : TaskId)
  | agentSpawned (sub_id : SubmissionId) (agent_id : AgentId) (parent_id : Option AgentId)
      (role : AgentRole) (config : AgentConfig)
  | agentWorking (sub_id : SubmissionId) (agent_id : AgentId) (task_summary : String)
  | agentStatusChanged (sub_id : SubmissionId) (agent_id : AgentId) (status : AgentStatus)
  | agentMessage (sub_id : SubmissionId) (agent_id : AgentId) (content : String)
      (streaming : Bool) (message_type : MessageType)
  | agentComplete (sub_id : SubmissionId) (agent_id : AgentId) (result : AgentResult)
  | agentTerminated (sub_id : SubmissionId) (agent_id : AgentId) (reason : String)
  | toolCallStart (sub_id : SubmissionId) (agent_id : AgentId) (call_id : CallId)
      (tool_name : String) (arguments : Json)
  | approvalRequired (sub_id : SubmissionId) (agent_id : AgentId) (call_id : CallId)
      (tool_name : String) (arguments : Json) (description : String) (risk : RiskLevel)
  | toolCallComplete (sub_id : SubmissionId) (agent_id : AgentId) (call_id : CallId)
      (tool_name : String) (output : ToolOutput) (duration_ms : Nat)
  | toolCallFailed (sub_id : SubmissionId) (agent_id : AgentId) (call_id : CallId)
      (tool_name : String) (error : String)
  | hierarchyUpdated (sub_id : SubmissionId) (root : AgentTree)
  | checkpointSaved (sub_id : SubmissionId) (checkpoint_id : CheckpointId)
      (name : Option String) (timestamp : DateTimeUtc)
  | checkpointRestored (sub_id : SubmissionId) (checkpoint_id : CheckpointId)
  | checkpointList (sub_id : SubmissionId) (checkpoints : List CheckpointMeta)
  | planModeChanged (sub_id : SubmissionId) (enabled : Bool) (granularity : PlanGranularity)
  | planCreated (sub_id : SubmissionId) (plan : TaskPlan)
  | warning (sub_id : SubmissionId) (message : String) (details : Option String)
  | error (sub_id : SubmissionId) (message : String) (recoverable : Bool)
  | usageUpdate (sub_id : SubmissionId) (agent_id : Option AgentId) (usage : TokenUsage)

/-- Event::sub_id: the submission ID of any event, extracted by matching
every variant. -/
def Event.sub_id : Event → SubmissionId
  | .sessionConfigured sub_id _ _ => sub_id
  | .settingsUpdated sub_id _ => sub_id
  | .taskStarted sub_id _ _ => sub_id
  | .turnComplete sub_id _ _ _ => sub_id
  | .taskComplete sub_id _ _ => sub_id
  | .taskFailed sub_id _ _ => sub_id
  | .taskInterrupted sub_id _ => sub_id
  | .agentSpawned sub_id _ _ _ _ => sub_id
  | .agentWorking sub_id _ _ => sub_id
  | .agentStatusChanged sub_id _ _ => sub_id
  | .agentMessage sub_id _ _ _ _ => sub_id
  | .agentComplete sub_id _ _ => sub_id
  | .agentTerminated sub_id _ _ => sub_id
  | .toolCallStart sub_id _ _ _ _ => sub_id
  | .approvalRequired sub_id _ _ _ _ _ _ => sub_id
  | .toolCallComplete sub_id _ _ _ _ _ => sub_id
  | .toolCallFailed sub_id _ _ _ _ => sub_id
  | .hierarchyUpdated sub_id _ => sub_id
  | .checkpointSaved sub_id _ _ _ => sub_id
  | .checkpointRestored sub_id _ => sub_id
  | .checkpointList sub_id _ => sub_id
  | .planModeChanged sub_id _ _ => sub_id
  | .planCreated sub_id _ => sub_id
  | .warning sub_id _ _ => sub_id
  | .error sub_id _ _ => sub_id
  | .usageUpdate sub_id _ _ => sub_id

/-- Event::is_error: true exactly on the Error and TaskFailed patterns, as
the matches! in the source. -/
def Event.is_error : Event → Bool
  | .error _ _ _ => true
  | .taskFailed _ _ _ => true
  | _ => false

/-- Event::requires_attention: true exactly on the ApprovalRequired, Error
and Warning patterns, as the matches! in the source. -/
def Event.requires_attention : Event → Bool
  | .approvalRequired _ _ _ _ _ _ _ => true
  | .error _ _ _ => true
  | .warning _ _ _ => true
  | _ => false

/-- Serialization of an Event: snake_case variant tag under "type", payload
fields flattened into the same object in declaration order. -/
def encodeEvent : Event → Json
  | .sessionConfigured sub_id session_id config =>
      .obj [("type", .str "session_configured"), ("sub_id", encSubmissionId sub_id),
            ("session_id", encSessionId session_id), ("config", encSessionConfig config)]
  | .settingsUpdated sub_id settings =>
      .obj [("type", .str "settings_updated"), ("sub_id", encSubmissionId sub_id),
            ("settings", encSessionSettings settings)]
  | .taskStarted sub_id task_id prompt =>
      .obj [("type", .str "task_started"), ("sub_id", encSubmissionId sub_id),
            ("task_id", encTaskId task_id), ("prompt", .str prompt)]
  | .turnComplete sub_id task_id turn_number checkpoint_id =>
      .obj [("type", .str "turn_complete"), ("sub_id", encSubmissionId sub_id),
            ("task_id", encTaskId task_id), ("turn_number", encNat turn_number),
            ("checkpoint_id", encCheckpointId checkpoint_id)]
  | .taskComplete sub_id task_id result =>
      .obj [("type", .str "task_complete"), ("sub_id", encSubmissionId sub_id),
            ("task_id", encTaskId task_id), ("result", encTaskResult result)]
  | .taskFailed sub_id task_id err =>
      .obj [("type", .str "task_failed"), ("sub_id", encSubmissionId sub_id),
            ("task_id", encTaskId task_id), ("error", .str err)]
  | .taskInterrupted sub_id task_id =>
      .obj [("type", .str "task_interrupted"), ("sub_id", encSubmissionId sub_id),
            ("task_id", encTaskId task_id)]
  | .agentSpawned sub_id agent_id parent_id role config =>
      .obj [("type", .str "agent_spawned"), ("sub_id", encSubmissionId sub_id),
            ("agent_id", encAgentId agent_id), ("parent_id", encOpt encAgentId parent_id),
            ("role", encAgentRole role), ("config", encAgentConfig config)]
  | .agentWorking sub_id agent_id task_summary =>
      .obj [("type", .str "agent_working"), ("sub_id", encSubmissionId sub_id),
            ("agent_id", encAgentId agent_id), ("task_summary", .str task_summary)]
  | .agentStatusChanged sub_id agent_id status =>
      .obj [("type", .str "agent_status_changed"), ("sub_id", encSubmissionId sub_id),
            ("agent_id", encAgentId agent_id), ("status", encAgentStatus status)]
  | .agentMessage sub_id agent_id content streaming message_type =>
      .obj [("type", .str "agent_message"), ("sub_id", encSubmissionId sub_id),
            ("agent_id", encAgentId agent_id), ("content", .str content),
            ("streaming", .bool streaming), ("message_type", encMessageType message_type)]
  | .agentComplete sub_id agent_id result =>
      .obj [("type", .str "agent_complete"), ("sub_id", encSubmissionId sub_id),
            ("agent_id", encAgentId agent_id), ("result", encAgentResult result)]
  | .agentTerminated sub_id agent_id reason =>
      .obj [("type", .str "agent_terminated"), ("sub_id", encSubmissionId sub_id),
            ("agent_id", encAgentId agent_id), ("reason", .str reason)]
  | .toolCallStart sub_id agent_id call_id tool_name arguments =>
      .obj [("type", .str "tool_call_start"), ("sub_id", encSubmissionId sub_id),
            ("agent_id", encAgentId agent_id), ("call_id", encCallId call_id),
            ("tool_name", .str tool_name), ("arguments", encValue arguments)]
  | .approvalRequired sub_id agent_id call_id tool_name arguments description risk =>
      .obj [("type", .str "approval_required"), ("sub_id", encSubmissionId sub_id),
            ("agent_id", encAgentId agent_id), ("call_id", encCallId call_id),
            ("tool_name", .str tool_name), ("arguments", encValue arguments),
            ("description", .str description), ("risk", encRiskLevel risk)]
  | .toolCallComplete sub_id agent_id call_id tool_name output duration_ms =>
      .obj [("type", .str "tool_call_complete"), ("sub_id", encSubmissionId sub_id),
            ("agent_id", encAgentId agent_id), ("call_id", encCallId call_id),
            ("tool_name", .str tool_name), ("output", encToolOutput output),
            ("duration_ms", encNat duration_ms)]
  | .toolCallFailed sub_id agent_id call_id tool_name err =>
      .obj [("type", .str "tool_call_failed"), ("sub_id", encSubmissionId sub_id),
            ("agent_id", encAgentId agent_id), ("call_id", encCallId call_id),
            ("tool_name", .str tool_name), ("error", .str err)]
  | .hierarchyUpdated sub_id root =>
      .obj [("type", .str "hierarchy_updated"), ("sub_id", encSubmissionId sub_id),
            ("root", encodeTree root)]
  | .checkpointSaved sub_id checkpoint_id name timestamp =>
      .obj [("type", .str "checkpoint_saved"), ("sub_id", encSubmissionId sub_id),
            ("checkpoint_id", encCheckpointId checkpoint_id),
            ("name", encOpt (fun s => .str s) name), ("timestamp", encDateTime timestamp)]
  | .checkpointRestored sub_id checkpoint_id =>
      .obj [("type", .str "checkpoint_restored"), ("sub_id", encSubmissionId sub_id),
            ("checkpoint_id", encCheckpointId checkpoint_id)]
  | .checkpointList sub_id checkpoints =>
      .obj [("type", .str "checkpoint_list"), ("sub_id", encSubmissionId sub_id),
            ("checkpoints", encList encCheckpointMeta checkpoints)]
  | .planModeChanged sub_id enabled granularity =>
      .obj [("type", .str "plan_mode_changed"), ("sub_id", encSubmissionId sub_id),
            ("enabled", .bool enabled), ("granularity", encPlanGranularity granularity)]
  | .planCreated sub_id plan =>
      .obj [("type", .str "plan_created"), ("sub_id", encSubmissionId sub_id),
            ("plan", encTaskPlan plan)]
  | .warning sub_id message details =>
      .obj [("type", .str "warning"), ("sub_id", encSubmissionId sub_id),
            ("message", .str message), ("details", encOpt (fun s => .str s) details)]
  | .error sub_id message recoverable =>
      .obj [("type", .str "error"), ("sub_id", encSubmissionId sub_id),
            ("message", .str message), ("recoverable", .bool recoverable)]
  | .usageUpdate sub_id agent_id usage =>
      .obj [("type", .str "usage_update"), ("sub_id", encSubmissionId sub_id),
            ("agent_id", encOpt encAgentId agent_id), ("usage", encTokenUsage usage)]

def decEvSessionConfigured (fs : List (String × Json)) : DecRes Event := do
  let sub_id ← reqField fs "sub_id" decSubmissionId
  let session_id ← reqField fs "session_id" decSessionId
  let config ← reqField fs "config" decSessionConfig
  .ok (.sessionConfigured sub_id session_id config)

def decEvSettingsUpdated (fs : List (String × Json)) : DecRes Event := do
  let sub_id ← reqField fs "sub_id" decSubmissionId
  let settings ← reqField fs "settings" decSessionSettings
  .ok (.settingsUpdated sub_id settings)

def decEvTaskStarted (fs : List (String × Json)) : DecRes Event := do
  let sub_id ← reqField fs "sub_id" decSubmissionId
  let task_id ← reqField fs "task_id" decTaskId
  let prompt ← reqField fs "prompt" decString
  .ok (.taskStarted sub_id task_id prompt)

def decEvTurnComplete (fs : List (String × Json)) : DecRes Event := do
  let sub_id ← reqField fs "sub_id" decSubmissionId
  let task_id ← reqField fs "task_id" decTaskId
  let turn_number ← reqField fs "turn_number" decNat
  let checkpoint_id ← reqField fs "checkpoint_id" decCheckpointId
  .ok (.turnComplete sub_id task_id turn_number checkpoint_id)

def decEvTaskComplete (fs : List (String × Json)) : DecRes Event := do
  let sub_id ← reqField fs "sub_id" decSubmissionId
  let task_id ← reqField fs "task_id" decTaskId
  let result ← reqField fs "result" decTaskResult
  .ok (.taskComplete sub_id task_id result)

def decEvTaskFailed (fs : List (String × Json)) : DecRes Event := do
  let sub_id ← reqField fs "sub_id" decSubmissionId
  let task_id ← reqField fs "task_id" decTaskId
  let err ← reqField fs "error" decString
  .ok (.taskFailed sub_id task_id err)

def decEvTaskInterrupted (fs : List (String × Json)) : DecRes Event := do
  let sub_id ← reqField fs "sub_id" decSubmissionId
  let task_id ← reqField fs "task_id" decTaskId
  .ok (.taskInterrupted sub_id task_id)

def decEvAgentSpawned (fs : List (String × Json)) : DecRes Event := do
  let sub_id ← reqField fs "sub_id" decSubmissionId
  let agent_id ← reqField fs "agent_id" decAgentId
  let parent_id ← optField fs "parent_id" (decOpt decAgentId) Option.none
  let role ← reqField fs "role" decAgentRole
  let config ← reqField fs "config" decAgentConfig
  .ok (.agentSpawned sub_id agent_id parent_id role config)

def decEvAgentWorking (fs : List (String × Json)) : DecRes Event := do
  let sub_id ← reqField fs "sub_id" decSubmissionId
  let agent_id ← reqField fs "agent_id" decAgentId
  let task_summary ← reqField fs "task_summary" decString
  .ok (.agentWorking sub_id agent_id task_summary)

def decEvAgentStatusChanged (fs : List (String × Json)) : DecRes Event := do
  let sub_id ← reqField fs "sub_id" decSubmissionId
  let agent_id ← reqField fs "agent_id" decAgentId
  let status ← reqField fs "status" decAgentStatus
  .ok (.agentStatusChanged sub_id agent_id status)

def decEvAgentMessage (fs : List (String × Json)) : DecRes Event := do
  let sub_id ← reqField fs "sub_id" decSubmissionId
  let agent_id ← reqField fs "agent_id" decAgentId
  let content ← reqField fs "content" decString
  let streaming ← reqField fs "streaming" decBool
  let message_type ← reqField fs "message_type" decMessageType
  .ok (.agentMessage sub_id agent_id content streaming message_type)

def decEvAgentComplete (fs : List (String × Json)) : DecRes Event := do
  let sub_id ← reqField fs "sub_id" decSubmissionId
  let agent_id ← reqField fs "agent_id" decAgentId
  let result ← reqField fs "result" decAgentResult
  .ok (.agentComplete sub_id agent_id result)

def decEvAgentTerminated (fs : List (String × Json)) : DecRes Event := do
  let sub_id ← reqField fs "sub_id" decSubmissionId
  let agent_id ← reqField fs "agent_id" decAgentId
  let reason ← reqField fs "reason" decString
  .ok (.agentTerminated sub_id agent_id reason)

def decEvToolCallStart (fs : List (String × Json)) : DecRes Event := do
  let sub_id ← reqField fs "sub_id" decSubmissionId
  let agent_id ← reqField fs "agent_id" decAgentId
  let call_id ← reqField fs "call_id" decCallId
  let tool_name ← reqField fs "tool_name" decString
  let arguments ← reqField fs "arguments" decValue
  .ok (.toolCallStart sub_id agent_id call_id tool_name arguments)

def decEvApprovalRequired (fs : List (String × Json)) : DecRes Event := do
  let sub_id ← reqField fs "sub_id" decSubmissionId
  let agent_id ← reqField fs "agent_id" decAgentId
  let call_id ← reqField fs "call_id" decCallId
  let tool_name ← reqField fs "tool_name" decString
  let arguments ← reqField fs "arguments" decValue
  let description ← reqField fs "description" decString
  let risk ← reqField fs "risk" decRiskLevel
  .ok (.approvalRequired sub_id agent_id call_id tool_name arguments description risk)

def decEvToolCallComplete (fs : List (String × Json)) : DecRes Event := do
  let sub_id ← reqField fs "sub_id" decSubmissionId
  let agent_id ← reqField fs "agent_id" decAgentId
  let call_id ← reqField fs "call_id" decCallId
  let tool_name ← reqField fs "tool_name" decString
  let output ← reqField fs "output" decToolOutput
  let duration_ms ← reqField fs "duration_ms" decNat
  .ok (.toolCallComplete sub_id agent_id call_id tool_name output duration_ms)

def decEvToolCallFailed (fs : List (String × Json)) : DecRes Event := do
  let sub_id ← reqField fs "sub_id" decSubmissionId
  let agent_id ← reqField fs "agent_id" decAgentId
  let call_id ← reqField fs "call_id" decCallId
  let tool_name ← reqField fs "tool_name" decString
  let err ← reqField fs "error" decString
  .ok (.toolCallFailed sub_id agent_id call_id tool_name err)

def decEvHierarchyUpdated (fs : List (String × Json)) : DecRes Event := do
  let sub_id ← reqField fs "sub_id" decSubmissionId
  let root ← reqField fs "root" decodeTree
  .ok (.hierarchyUpdated sub_id root)

def decEvCheckpointSaved (fs : List (String × Json)) : DecRes Event := do
  let sub_id ← reqField fs "sub_id" decSubmissionId
  let checkpoint_id ← reqField fs "checkpoint_id" decCheckpointId
  let name ← optField fs "name" (decOpt decString) Option.none
  let timestamp ← reqField fs "timestamp" decDateTime
  .ok (.checkpointSaved sub_id checkpoint_id name timestamp)

def decEvCheckpointRestored (fs : List (String × Json)) : DecRes Event := do
  let sub_id ← reqField fs "sub_id" decSubmissionId
  let checkpoint_id ← reqField fs "checkpoint_id" decCheckpointId
  .ok (.checkpointRestored sub_id checkpoint_id)

def decEvCheckpointList (fs : List (String × Json)) : DecRes Event := do
  let sub_id ← reqField fs "sub_id" decSubmissionId
  let checkpoints ← reqField fs "checkpoints" (decList decCheckpointMeta)
  .ok (.checkpointList sub_id checkpoints)

def decEvPlanModeChanged (fs : List (String × Json)) : DecRes Event := do
  let sub_id ← reqField fs "sub_id" decSubmissionId
  let enabled ← reqField fs "enabled" decBool
  let granularity ← reqField fs "granularity" decPlanGranularity
  .ok (.planModeChanged sub_id enabled granularity)

def decEvPlanCreated (fs : List (String × Json)) : DecRes Event := do
  let sub_id ← reqField fs "sub_id" decSubmissionId
  let plan ← reqField fs "plan" decTaskPlan
  .ok (.planCreated sub_id plan)

def decEvWarning (fs : List (String × Json)) : DecRes Event := do
  let sub_id ← reqField fs "sub_id" decSubmissionId
  let message ← reqField fs "message" decString
  let details ← optField fs "details" (decOpt decString) Option.none
  .ok (.warning sub_id message details)

def decEvError (fs : List (String × Json)) : DecRes Event := do
  let sub_id ← reqField fs "sub_id" decSubmissionId
  let message ← reqField fs "message" decString
  let recoverable ← optField fs "recoverable" decBool false
  .ok (.error sub_id message recoverable)

def decEvUsageUpdate (fs : List (String × Json)) : DecRes Event := do
  let sub_id ← reqField fs "sub_id" decSubmissionId
  let agent_id ← optField fs "agent_id" (decOpt decAgentId) Option.none
  let usage ← reqField fs "usage" decTokenUsage
  .ok (.usageUpdate sub_id agent_id usage)

/-- Dispatch on the "type" tag of a buffered Event object; unknown tags
fail with UnknownEvent (error classification modelled from the spec, as for
decodeOpFields). -/
def decodeEventFields (fs : List (String × Json)) : DecRes Event :=
  match jLookup fs "type" with
  | some (.str t) =>
      if t = "session_configured" then decEvSessionConfigured fs
      else if t = "settings_updated" then decEvSettingsUpdated fs
      else if t = "task_started" then decEvTaskStarted fs
      else if t = "turn_complete" then decEvTurnComplete fs
      else if t = "task_complete" then decEvTaskComplete fs
      else if t = "task_failed" then decEvTaskFailed fs
      else if t = "task_interrupted" then decEvTaskInterrupted fs
      else if t = "agent_spawned" then decEvAgentSpawned fs
      else if t = "agent_working" then decEvAgentWorking fs
      else if t = "agent_status_changed" then decEvAgentStatusChanged fs
      else if t = "agent_message" then decEvAgentMessage fs
      else if t = "agent_complete" then decEvAgentComplete fs
      else if t = "agent_terminated" then decEvAgentTerminated fs
      else if t = "tool_call_start" then decEvToolCallStart fs
      else if t = "approval_required" then decEvApprovalRequired fs
      else if t = "tool_call_complete" then decEvToolCallComplete fs
      else if t = "tool_call_failed" then decEvToolCallFailed fs
      else if t = "hierarchy_updated" then decEvHierarchyUpdated fs
      else if t = "checkpoint_saved" then decEvCheckpointSaved fs
      else if t = "checkpoint_restored" then decEvCheckpointRestored fs
      else if t = "checkpoint_list" then decEvCheckpointList fs
      else if t = "plan_mode_changed" then decEvPlanModeChanged fs
      else if t = "plan_created" then decEvPlanCreated fs
      else if t = "warning" then decEvWarning fs
      else if t = "error" then decEvError fs
      else if t = "usage_update" then decEvUsageUpdate fs
      else .error (.unknownEvent t)
  | some _ => .error (.deserializationError "event tag must be a string")
  | Option.none => .error (.deserializationError "missing field type")

/-- Deserialization of an Event. -/
def decodeEvent : Json → DecRes Event
  | .obj fs => decodeEventFields fs
  | _ => .error (.deserializationError "expected an object")

-- === Round-trip lemma library ===

theorem decOpt_not_null {α : Type} {dec : Json → DecRes α} {j : Json} (h : j ≠ .null) :
    decOpt dec j = (dec j).map some := by
  cases j <;> simp_all [decOpt]

theorem decOpt_enc {α : Type} {dec : Json → DecRes α} {enc : α → Json}
    (h : ∀ x, dec (enc x) = .ok x) (hnn : ∀ x, enc x ≠ .null) (o : Option α) :
    decOpt dec (encOpt enc o) = .ok o := by
  cases o with
  | none => rfl
  | some v =>
      rw [encOpt, decOpt_not_null (hnn v), h v]
      rfl

theorem decList_enc {α : Type} {dec : Json → DecRes α} {enc : α → Json}
    (h : ∀ x, dec (enc x) = .ok x) (xs : List α) :
    decList dec (encList enc xs) = .ok xs := by
  rw [encList, decList]
  induction xs with
  | nil => rfl
  | cons x rest ih => simp [decListOf, h, List.map, ih]

theorem decMap_enc {α : Type} {dec : Json → DecRes α} {enc : α → Json}
    (h : ∀ x, dec (enc x) = .ok x) (m : List (String × α)) :
    decMap dec (encMap enc m) = .ok m := by
  rw [encMap, decMap]
  induction m with
  | nil => rfl
  | cons p rest ih => simp [decEntries, h, List.map, ih]

@[simp] theorem decString_str (s : String) : decString (.str s) = .ok s := rfl
@[simp] theorem decBool_bool (b : Bool) : decBool (.bool b) = .ok b := rfl
@[simp] theorem decNat_enc (n : Nat) : decNat (encNat n) = .ok n := rfl
theorem decF64_enc (x : F64) (h : x.isFinite = true) : decF64 (encF64 x) = .ok x := by
  simp [encF64, h, decF64]
@[simp] theorem decPathBuf_enc (p : PathBuf) : decPathBuf (encPathBuf p) = .ok p := rfl
@[simp] theorem decValue_enc (j : Json) : decValue (encValue j) = .ok j := rfl
@[simp] theorem decUuid_enc (u : Uuid) : decUuid (encUuid u) = .ok u := rfl
@[simp] theorem decAgentId_enc (x : AgentId) : decAgentId (encAgentId x) = .ok x := rfl
@[simp] theorem decTaskId_enc (x : TaskId) : decTaskId (encTaskId x) = .ok x := rfl
@[simp] theorem decCallId_enc (x : CallId) : decCallId (encCallId x) = .ok x := rfl
@[simp] theorem decSessionId_enc (x : SessionId) : decSessionId (encSessionId x) = .ok x := rfl
@[simp] theorem decCheckpointId_enc (x : CheckpointId) :
    decCheckpointId (encCheckpointId x) = .ok x := rfl
@[simp] theorem decSubmissionId_enc (x : SubmissionId) :
    decSubmissionId (encSubmissionId x) = .ok x := rfl
@[simp] theorem decDateTime_enc (t : DateTimeUtc) : decDateTime (encDateTime t) = .ok t := rfl

@[simp] theorem decInt_enc (i : Int) : decInt (encInt i) = .ok i := by
  by_cases h : 0 ≤ i
  · simp [encInt, h, decInt, Int.toNat_of_nonneg h]
  · simp [encInt, h, decInt]

@[simp] theorem decOpt_string (o : Option String) :
    decOpt decString (encOpt (fun s => Json.str s) o) = .ok o := by
  apply decOpt_enc
  · intro x; rfl
  · intro x; exact fun h => Json.noConfusion h

@[simp] theorem decOpt_pathBuf (o : Option PathBuf) :
    decOpt decPathBuf (encOpt encPathBuf o) = .ok o := by
  apply decOpt_enc
  · intro x; rfl
  · intro x; exact fun h => Json.noConfusion h

@[simp] theorem decOpt_nat (o : Option Nat) :
    decOpt decNat (encOpt encNat o) = .ok o := by
  apply decOpt_enc
  · intro x; rfl
  · intro x; exact fun h => Json.noConfusion h

@[simp] theorem decOpt_int (o : Option Int) :
    decOpt decInt (encOpt encInt o) = .ok o := by
  apply decOpt_enc
  · exact decInt_enc
  · intro x
    unfold encInt
    split <;> exact fun h => Json.noConfusion h

/-- An optional f64 slot round-trips exactly when its content is finite:
Some of a non-finite double serializes as the same null that deserializes
to None. -/
theorem decOpt_f64 (o : Option F64) (h : o.all F64.isFinite = true) :
    decOpt decF64 (encOpt encF64 o) = .ok o := by
  cases o with
  | none => rfl
  | some x =>
      simp only [Option.all] at h
      rw [encOpt, encF64, if_pos h]
      rfl

@[simp] theorem decOpt_taskId (o : Option TaskId) :
    decOpt decTaskId (encOpt encTaskId o) = .ok o := by
  apply decOpt_enc
  · exact decTaskId_enc
  · intro x; exact fun h => Json.noConfusion h

@[simp] theorem decOpt_agentId (o : Option AgentId) :
    decOpt decAgentId (encOpt encAgentId o) = .ok o := by
  apply decOpt_enc
  · exact decAgentId_enc
  · intro x; exact fun h => Json.noConfusion h

@[simp] theorem decOpt_checkpointId (o : Option CheckpointId) :
    decOpt decCheckpointId (encOpt encCheckpointId o) = .ok o := by
  apply decOpt_enc
  · exact decCheckpointId_enc
  · intro x; exact fun h => Json.noConfusion h

@[simp] theorem decList_string (xs : List String) :
    decList decString (encList (fun s => Json.str s) xs) = .ok xs := by
  apply decList_enc
  intro x; rfl

@[simp] theorem decList_pathBuf (xs : List PathBuf) :
    decList decPathBuf (encList encPathBuf xs) = .ok xs := by
  apply decList_enc
  intro x; rfl

@[simp] theorem decList_taskId (xs : List TaskId) :
    decList decTaskId (encList encTaskId xs) = .ok xs := by
  apply decList_enc
  exact decTaskId_enc

@[simp] theorem decMap_string (m : List (String × String)) :
    decMap decString (encMap (fun s => Json.str s) m) = .ok m := by
  apply decMap_enc
  intro x; rfl

@[simp] theorem decMap_value (m : List (String × Json)) :
    decMap decValue (encMap encValue m) = .ok m := by
  apply decMap_enc
  intro x; rfl

@[simp] theorem decApprovalMode_enc (x : ApprovalMode) :
    decApprovalMode (encApprovalMode x) = .ok x := by
  cases x <;> rfl

@[simp] theorem decRiskLevel_enc (x : RiskLevel) :
    decRiskLevel (encRiskLevel x) = .ok x := by
  cases x <;> rfl

@[simp] theorem decPlanGranularity_enc (x : PlanGranularity) :
    decPlanGranularity (encPlanGranularity x) = .ok x := by
  cases x <;> rfl

@[simp] theorem decStepComplexity_enc (x : StepComplexity) :
    decStepComplexity (encStepComplexity x) = .ok x := by
  cases x <;> rfl

@[simp] theorem decMessageType_enc (x : MessageType) :
    decMessageType (encMessageType x) = .ok x := by
  cases x <;> rfl

@[simp] theorem decNetworkPolicy_enc (x : NetworkPolicy) :
    decNetworkPolicy (encNetworkPolicy x) = .ok x := by
  cases x <;> simp [encNetworkPolicy, decNetworkPolicy, Except.map]

@[simp] theorem decAgentRole_enc (x : AgentRole) :
    decAgentRole (encAgentRole x) = .ok x := by
  cases x <;> rfl

@[simp] theorem decAgentStatus_enc (x : AgentStatus) :
    decAgentStatus (encAgentStatus x) = .ok x := by
  cases x <;> rfl

@[simp] theorem decMcpTransport_enc (x : McpTransport) :
    decMcpTransport (encMcpTransport x) = .ok x := by
  cases x <;>
    simp [encMcpTransport, decMcpTransport, decMcpTransportFields, jLookup, reqField, optField]

@[simp] theorem decMcpServerConfig_enc (c : McpServerConfig) :
    decMcpServerConfig (encMcpServerConfig c) = .ok c := by
  obtain ⟨id, name, transport, env⟩ := c
  simp [encMcpServerConfig, decMcpServerConfig, jLookup, reqField, optField]

@[simp] theorem decList_mcpServerConfig (xs : List McpServerConfig) :
    decList decMcpServerConfig (encList encMcpServerConfig xs) = .ok xs := by
  apply decList_enc
  exact decMcpServerConfig_enc

@[simp] theorem decSandboxConfig_enc (c : SandboxConfig) :
    decSandboxConfig (encSandboxConfig c) = .ok c := by
  obtain ⟨enabled, network, writable_paths, timeout_secs⟩ := c
  simp [encSandboxConfig, decSandboxConfig, jLookup, reqField, optField]

@[simp] theorem decSessionConfig_enc (c : SessionConfig) :
    decSessionConfig (encSessionConfig c) = .ok c := by
  obtain ⟨cwd, model, instructions, mcp_servers, approval_mode, sandbox, max_parallel_agents⟩ := c
  simp [encSessionConfig, decSessionConfig, jLookup, reqField, optField]

@[simp] theorem decSessionSettings_enc (s : SessionSettings) :
    decSessionSettings (encSessionSettings s) = .ok s := by
  obtain ⟨show_rate_limit, subagent_concurrency, plan_granularity⟩ := s
  simp [encSessionSettings, decSessionSettings, jLookup, reqField, optField]

@[simp] theorem decAgentConfig_enc (c : AgentConfig) :
    decAgentConfig (encAgentConfig c) = .ok c := by
  obtain ⟨role, model, cwd, worktree, tools, can_spawn, max_children, token_budget⟩ := c
  simp [encAgentConfig, decAgentConfig, jLookup, reqField, optField]

@[simp] theorem decAgentResult_enc (r : AgentResult) :
    decAgentResult (encAgentResult r) = .ok r := by
  obtain ⟨success, summary, files_changed, output⟩ := r
  simp [encAgentResult, decAgentResult, jLookup, reqField, optField]

@[simp] theorem decTaskContext_enc (c : TaskContext) :
    decTaskContext (encTaskContext c) = .ok c := by
  obtain ⟨cwd, files, memory_context, metadata⟩ := c
  simp [encTaskContext, decTaskContext, jLookup, reqField, optField]

@[simp] theorem decTaskAssignment_enc (t : TaskAssignment) :
    decTaskAssignment (encTaskAssignment t) = .ok t := by
  obtain ⟨task_id, description, deliverables, dependencies, context⟩ := t
  simp [encTaskAssignment, decTaskAssignment, jLookup, reqField, optField]

/-- A TokenUsage round-trips whenever its optional estimated cost is a
finite double. -/
theorem decTokenUsage_enc (u : TokenUsage)
    (h : u.estimated_cost_usd.all F64.isFinite = true) :
    decTokenUsage (encTokenUsage u) = .ok u := by
  obtain ⟨input_tokens, output_tokens, total_tokens, estimated_cost_usd⟩ := u
  simp [encTokenUsage, decTokenUsage, jLookup, reqField, optField,
    decOpt_f64 estimated_cost_usd h]

/-- A TaskResult round-trips whenever the optional estimated cost of its
token usage is a finite double. -/
theorem decTaskResult_enc (r : TaskResult)
    (h : r.token_usage.estimated_cost_usd.all F64.isFinite = true) :
    decTaskResult (encTaskResult r) = .ok r := by
  obtain ⟨task_id, success, summary, files_changed, token_usage⟩ := r
  simp [encTaskResult, decTaskResult, jLookup, reqField, optField,
    decTokenUsage_enc token_usage h]

/-- A ToolOutput round-trips whenever its structured data is not an
explicit JSON null: Some(Value::Null) serializes as the same null that
deserializes to None. -/
theorem decToolOutput_enc (t : ToolOutput) (h : t.data ≠ some .null) :
    decToolOutput (encToolOutput t) = .ok t := by
  obtain ⟨success, content, data, exit_code⟩ := t
  simp only [encToolOutput, decToolOutput, jLookup, reqField, optField]
  simp only [ne_eq] at h
  have hdata : decOpt decValue (encOpt encValue data) = .ok data := by
    cases data with
    | none => rfl
    | some v =>
        have hv : v ≠ .null := by
          intro hv
          exact h (by rw [hv])
        rw [encOpt, decOpt_not_null, decValue_enc]
        · rfl
        · simpa [encValue] using hv
  simp [hdata]

@[simp] theorem decPlanStep_enc (s : PlanStep) : decPlanStep (encPlanStep s) = .ok s := by
  obtain ⟨id, description, expected_outcome, complexity⟩ := s
  simp [encPlanStep, decPlanStep, jLookup, reqField, optField]

@[simp] theorem decList_planStep (xs : List PlanStep) :
    decList decPlanStep (encList encPlanStep xs) = .ok xs := by
  apply decList_enc
  exact decPlanStep_enc

@[simp] theorem decEdge_enc (e : String × String) : decEdge (encEdge e) = .ok e := rfl

@[simp] theorem decList_edge (xs : List (String × String)) :
    decList decEdge (encList encEdge xs) = .ok xs := by
  apply decList_enc
  exact decEdge_enc

@[simp] theorem decMap_agentRole (m : List (String × AgentRole)) :
    decMap decAgentRole (encMap encAgentRole m) = .ok m := by
  apply decMap_enc
  exact decAgentRole_enc

@[simp] theorem decTaskPlan_enc (p : TaskPlan) : decTaskPlan (encTaskPlan p) = .ok p := by
  obtain ⟨original_request, steps, agent_assignments, dependencies, estimated_tokens⟩ := p
  simp [encTaskPlan, decTaskPlan, jLookup, reqField, optField]

@[simp] theorem decCheckpointMeta_enc (m : CheckpointMeta) :
    decCheckpointMeta (encCheckpointMeta m) = .ok m := by
  obtain ⟨id, name, timestamp, size_bytes, task_id, summary⟩ := m
  simp [encCheckpointMeta, decCheckpointMeta, jLookup, reqField, optField]

@[simp] theorem decList_checkpointMeta (xs : List CheckpointMeta) :
    decList decCheckpointMeta (encList encCheckpointMeta xs) = .ok xs := by
  apply decList_enc
  exact decCheckpointMeta_enc

@[simp] theorem decImageAttachment_enc (a : ImageAttachment) :
    decImageAttachment (encImageAttachment a) = .ok a := by
  obtain ⟨data, mime_type, filename⟩ := a
  simp [encImageAttachment, decImageAttachment, jLookup, reqField, optField]

@[simp] theorem decList_imageAttachment (xs : List ImageAttachment) :
    decList decImageAttachment (encList encImageAttachment xs) = .ok xs := by
  apply decList_enc
  exact decImageAttachment_enc

theorem tree_rt_aux (n : Nat) :
    (∀ t : AgentTree, sizeOf t ≤ n → decodeTree (encodeTree t) = .ok t) ∧
    (∀ l : List AgentTree, sizeOf l ≤ n → decodeTreeList (encodeTreeList l) = .ok l) := by
  induction n with
  | zero =>
      constructor
      · intro t ht
        obtain ⟨aid, role, status, ts, children⟩ := t
        simp only [AgentTree.mk.sizeOf_spec] at ht
        omega
      · intro l hl
        cases l with
        | nil => simp [decodeTreeList, encodeTreeList]
        | cons t ts =>
            simp only [List.cons.sizeOf_spec] at hl
            omega
  | succ n ih =>
      constructor
      · intro t ht
        obtain ⟨aid, role, status, ts, children⟩ := t
        have hch : sizeOf children ≤ n := by
          simp only [AgentTree.mk.sizeOf_spec] at ht
          omega
        have hrt := ih.2 children hch
        rw [encodeTree]
        simp [decodeTree, jLookup, reqField, optField, hrt]
      · intro l hl
        cases l with
        | nil => simp [decodeTreeList, encodeTreeList]
        | cons t ts =>
            have h1 : sizeOf t ≤ n := by
              simp only [List.cons.sizeOf_spec] at hl
              omega
            have h2 : sizeOf ts ≤ n := by
              simp only [List.cons.sizeOf_spec] at hl
              omega
            rw [encodeTreeList]
            simp [decodeTreeList, (ih.1) t h1, (ih.2) ts h2]

@[simp] theorem decodeTree_enc (t : AgentTree) : decodeTree (encodeTree t) = .ok t :=
  (tree_rt_aux (sizeOf t)).1 t (Nat.le_refl _)

/-- Round-trip for every Command value. -/
theorem op_roundtrip (op : Op) : decodeOp (encodeOp op) = .ok op := by
  cases op <;>
    simp [encodeOp, decodeOp, decodeOpFields, jLookup, reqField, optField,
      decOpConfigureSession, decOpUserInput, decOpInterrupt, decOpExecApproval,
      decOpMcpApproval, decOpSpawnAgent, decOpTerminateAgent, decOpRouteMessage,
      decOpSaveCheckpoint, decOpRestoreCheckpoint, decOpListCheckpoints, decOpUndo,
      decOpTogglePlanMode, decOpUpdateSettings]

/-- An Event has no payload slot that serialization collapses to JSON
null: the optional Value slot of a ToolCallComplete output is not an
explicit null, and every optional estimated cost (the one f64 slot of the
model, reachable through TaskComplete's result and UsageUpdate's usage) is
a finite double. This is the side condition under which the Event
round-trip holds. -/
def noNullCollapse : Event → Prop
  | .taskComplete _ _ result => result.token_usage.estimated_cost_usd.all F64.isFinite = true
  | .toolCallComplete _ _ _ _ output _ => output.data ≠ some .null
  | .usageUpdate _ _ usage => usage.estimated_cost_usd.all F64.isFinite = true
  | _ => True

/-- Round-trip for every Event value with no null-collapsing slot. -/
theorem event_roundtrip (e : Event) (h : noNullCollapse e) :
    decodeEvent (encodeEvent e) = .ok e := by
  cases e
  case taskComplete sub_id task_id result =>
    simp only [noNullCollapse] at h
    simp [encodeEvent, decodeEvent, decodeEventFields, jLookup, reqField, optField,
      decEvTaskComplete, decTaskResult_enc result h]
  case toolCallComplete sub_id agent_id call_id tool_name output duration_ms =>
    simp only [noNullCollapse] at h
    simp [encodeEvent, decodeEvent, decodeEventFields, jLookup, reqField, optField,
      decEvToolCallComplete, decToolOutput_enc output h]
  case usageUpdate sub_id agent_id usage =>
    simp only [noNullCollapse] at h
    simp [encodeEvent, decodeEvent, decodeEventFields, jLookup, reqField, optField,
      decEvUsageUpdate, decTokenUsage_enc usage h]
  all_goals
    simp [encodeEvent, decodeEvent, decodeEventFields, jLookup, reqField, optField,
      decEvSessionConfigured, decEvSettingsUpdated, decEvTaskStarted, decEvTurnComplete,
      decEvTaskFailed, decEvTaskInterrupted, decEvAgentSpawned,
      decEvAgentWorking, decEvAgentStatusChanged, decEvAgentMessage, decEvAgentComplete,
      decEvAgentTerminated, decEvToolCallStart, decEvApprovalRequired, decEvToolCallFailed,
      decEvHierarchyUpdated, decEvCheckpointSaved, decEvCheckpointRestored,
      decEvCheckpointList, decEvPlanModeChanged, decEvPlanCreated, decEvWarning,
      decEvError]

-- === Unknown-field tolerance machinery ===

/-- Every field key a Command decoder ever consults: the tag key and the
union of all variant payload field names. -/
def opKeys : List String :=
  ["type", "sub_id", "config", "prompt", "images", "context", "checkpoint_id",
   "task_id", "call_id", "approved", "modified_command", "parent_id", "task",
   "agent_id", "reason", "content", "name", "enabled", "granularity", "settings"]

/-- Every field key an Event decoder ever consults. -/
def eventKeys : List String :=
  ["type", "sub_id", "session_id", "config", "settings", "task_id", "prompt",
   "turn_number", "checkpoint_id", "result", "error", "agent_id", "parent_id",
   "role", "status", "task_summary", "content", "streaming", "message_type",
   "call_id", "tool_name", "arguments", "description", "risk", "output",
   "duration_ms", "root", "name", "timestamp", "checkpoints", "enabled",
   "granularity", "plan", "message", "details", "recoverable", "usage", "reason"]

theorem jLookup_eq_none (l : List (String × Json)) (k : String)
    (h : ∀ p ∈ l, p.1 ≠ k) : jLookup l k = Option.none := by
  induction l with
  | nil => rfl
  | cons p rest ih =>
      obtain ⟨k', v⟩ := p
      rw [jLookup]
      rw [if_neg (h (k', v) (List.mem_cons_self _ _))]
      exact ih fun q hq => h q (List.mem_cons_of_mem _ hq)

theorem jLookup_append (fields extra : List (String × Json)) (k : String)
    (h : ∀ p ∈ extra, p.1 ≠ k) : jLookup (fields ++ extra) k = jLookup fields k := by
  induction fields with
  | nil => simpa using jLookup_eq_none extra k h
  | cons p rest ih =>
      obtain ⟨k', v⟩ := p
      rw [List.cons_append, jLookup, jLookup]
      split
      · rfl
      · exact ih

theorem keys_ne_of_disjoint {ks : List String} {extra : List (String × Json)}
    (hdisj : ∀ p ∈ extra, p.1 ∉ ks) {k : String} (hk : k ∈ ks) :
    ∀ p ∈ extra, p.1 ≠ k :=
  fun p hp he => hdisj p hp (he ▸ hk)

/-- Appending fields whose keys are outside opKeys does not change the
result of Command decoding: serde ignores unknown fields (there is no
deny_unknown_fields attribute on Op). -/
theorem decodeOp_extra_fields (fields extra : List (String × Json))
    (hdisj : ∀ p ∈ extra, p.1 ∉ opKeys) :
    decodeOp (.obj (fields ++ extra)) = decodeOp (.obj fields) := by
  have hl : ∀ k, k ∈ opKeys → jLookup (fields ++ extra) k = jLookup fields k := fun k hk =>
    jLookup_append fields extra k (keys_ne_of_disjoint hdisj hk)
  have e_type := hl "type" (by simp [opKeys])
  have e_subid := hl "sub_id" (by simp [opKeys])
  have e_config := hl "config" (by simp [opKeys])
  have e_prompt := hl "prompt" (by simp [opKeys])
  have e_images := hl "images" (by simp [opKeys])
  have e_context := hl "context" (by simp [opKeys])
  have e_ckpt := hl "checkpoint_id" (by simp [opKeys])
  have e_taskid := hl "task_id" (by simp [opKeys])
  have e_callid := hl "call_id" (by simp [opKeys])
  have e_approved := hl "approved" (by simp [opKeys])
  have e_modcmd := hl "modified_command" (by simp [opKeys])
  have e_parent := hl "parent_id" (by simp [opKeys])
  have e_task := hl "task" (by simp [opKeys])
  have e_agentid := hl "agent_id" (by simp [opKeys])
  have e_reason := hl "reason" (by simp [opKeys])
  have e_content := hl "content" (by simp [opKeys])
  have e_name := hl "name" (by simp [opKeys])
  have e_enabled := hl "enabled" (by simp [opKeys])
  have e_gran := hl "granularity" (by simp [opKeys])
  have e_settings := hl "settings" (by simp [opKeys])
  have hp01 : decOpConfigureSession (fields ++ extra) = decOpConfigureSession fields := by
    simp only [decOpConfigureSession, reqField, optField, e_subid, e_config]
  have hp02 : decOpUserInput (fields ++ extra) = decOpUserInput fields := by
    simp only [decOpUserInput, reqField, optField, e_subid, e_prompt, e_images, e_context,
      e_ckpt]
  have hp03 : decOpInterrupt (fields ++ extra) = decOpInterrupt fields := by
    simp only [decOpInterrupt, reqField, optField, e_subid, e_taskid]
  have hp04 : decOpExecApproval (fields ++ extra) = decOpExecApproval fields := by
    simp only [decOpExecApproval, reqField, optField, e_subid, e_callid, e_approved, e_modcmd]
  have hp05 : decOpMcpApproval (fields ++ extra) = decOpMcpApproval fields := by
    simp only [decOpMcpApproval, reqField, optField, e_subid, e_callid, e_approved]
  have hp06 : decOpSpawnAgent (fields ++ extra) = decOpSpawnAgent fields := by
    simp only [decOpSpawnAgent, reqField, optField, e_subid, e_config, e_parent, e_task]
  have hp07 : decOpTerminateAgent (fields ++ extra) = decOpTerminateAgent fields := by
    simp only [decOpTerminateAgent, reqField, optField, e_subid, e_agentid, e_reason]
  have hp08 : decOpRouteMessage (fields ++ extra) = decOpRouteMessage fields := by
    simp only [decOpRouteMessage, reqField, optField, e_subid, e_agentid, e_content]
  have hp09 : decOpSaveCheckpoint (fields ++ extra) = decOpSaveCheckpoint fields := by
    simp only [decOpSaveCheckpoint, reqField, optField, e_subid, e_name]
  have hp10 : decOpRestoreCheckpoint (fields ++ extra) = decOpRestoreCheckpoint fields := by
    simp only [decOpRestoreCheckpoint, reqField, optField, e_subid, e_ckpt]
  have hp11 : decOpListCheckpoints (fields ++ extra) = decOpListCheckpoints fields := by
    simp only [decOpListCheckpoints, reqField, optField, e_subid]
  have hp12 : decOpUndo (fields ++ extra) = decOpUndo fields := by
    simp only [decOpUndo, reqField, optField, e_subid]
  have hp13 : decOpTogglePlanMode (fields ++ extra) = decOpTogglePlanMode fields := by
    simp only [decOpTogglePlanMode, reqField, optField, e_subid, e_enabled, e_gran]
  have hp14 : decOpUpdateSettings (fields ++ extra) = decOpUpdateSettings fields := by
    simp only [decOpUpdateSettings, reqField, optField, e_subid, e_settings]
  simp only [decodeOp, decodeOpFields, e_type, hp01, hp02, hp03, hp04, hp05, hp06, hp07,
    hp08, hp09, hp10, hp11, hp12, hp13, hp14]

/-- Appending fields whose keys are outside eventKeys does not change the
result of Event decoding. -/
theorem decodeEvent_extra_fields (fields extra : List (String × Json))
    (hdisj : ∀ p ∈ extra, p.1 ∉ eventKeys) :
    decodeEvent (.obj (fields ++ extra)) = decodeEvent (.obj fields) := by
  have hl : ∀ k, k ∈ eventKeys → jLookup (fields ++ extra) k = jLookup fields k := fun k hk =>
    jLookup_append fields extra k (keys_ne_of_disjoint hdisj hk)
  have e_type := hl "type" (by simp [eventKeys])
  have e_subid := hl "sub_id" (by simp [eventKeys])
  have e_sessionid := hl "session_id" (by simp [eventKeys])
  have e_config := hl "config" (by simp [eventKeys])
  have e_settings := hl "settings" (by simp [eventKeys])
  have e_taskid := hl "task_id" (by simp [eventKeys])
  have e_prompt := hl "prompt" (by simp [eventKeys])
  have e_turn := hl "turn_number" (by simp [eventKeys])
  have e_ckpt := hl "checkpoint_id" (by simp [eventKeys])
  have e_result := hl "result" (by simp [eventKeys])
  have e_error := hl "error" (by simp [eventKeys])
  have e_agentid := hl "agent_id" (by simp [eventKeys])
  have e_parent := hl "parent_id" (by simp [eventKeys])
  have e_role := hl "role" (by simp [eventKeys])
  have e_status := hl "status" (by simp [eventKeys])
  have e_tasksum := hl "task_summary" (by simp [eventKeys])
  have e_content := hl "content" (by simp [eventKeys])
  have e_streaming := hl "streaming" (by simp [eventKeys])
  have e_msgtype := hl "message_type" (by simp [eventKeys])
  have e_callid := hl "call_id" (by simp [eventKeys])
  have e_toolname := hl "tool_name" (by simp [eventKeys])
  have e_args := hl "arguments" (by simp [eventKeys])
  have e_descr := hl "description" (by simp [eventKeys])
  have e_risk := hl "risk" (by simp [eventKeys])
  have e_output := hl "output" (by simp [eventKeys])
  have e_duration := hl "duration_ms" (by simp [eventKeys])
  have e_root := hl "root" (by simp [eventKeys])
  have e_name := hl "name" (by simp [eventKeys])
  have e_timestamp := hl "timestamp" (by simp [eventKeys])
  have e_ckpts := hl "checkpoints" (by simp [eventKeys])
  have e_enabled := hl "enabled" (by simp [eventKeys])
  have e_gran := hl "granularity" (by simp [eventKeys])
  have e_plan := hl "plan" (by simp [eventKeys])
  have e_message := hl "message" (by simp [eventKeys])
  have e_details := hl "details" (by simp [eventKeys])
  have e_recov := hl "recoverable" (by simp [eventKeys])
  have e_usage := hl "usage" (by simp [eventKeys])
  have e_reason := hl "reason" (by simp [eventKeys])
  have hp01 : decEvSessionConfigured (fields ++ extra) = decEvSessionConfigured fields := by
    simp only [decEvSessionConfigured, reqField, optField, e_subid, e_sessionid, e_config]
  have hp02 : decEvSettingsUpdated (fields ++ extra) = decEvSettingsUpdated fields := by
    simp only [decEvSettingsUpdated, reqField, optField, e_subid, e_settings]
  have hp03 : decEvTaskStarted (fields ++ extra) = decEvTaskStarted fields := by
    simp only [decEvTaskStarted, reqField, optField, e_subid, e_taskid, e_prompt]
  have hp04 : decEvTurnComplete (fields ++ extra) = decEvTurnComplete fields := by
    simp only [decEvTurnComplete, reqField, optField, e_subid, e_taskid, e_turn, e_ckpt]
  have hp05 : decEvTaskComplete (fields ++ extra) = decEvTaskComplete fields := by
    simp only [decEvTaskComplete, reqField, optField, e_subid, e_taskid, e_result]
  have hp06 : decEvTaskFailed (fields ++ extra) = decEvTaskFailed fields := by
    simp only [decEvTaskFailed, reqField, optField, e_subid, e_taskid, e_error]
  have hp07 : decEvTaskInterrupted (fields ++ extra) = decEvTaskInterrupted fields := by
    simp only [decEvTaskInterrupted, reqField, optField, e_subid, e_taskid]
  have hp08 : decEvAgentSpawned (fields ++ extra) = decEvAgentSpawned fields := by
    simp only [decEvAgentSpawned, reqField, optField, e_subid, e_agentid, e_parent, e_role,
      e_config]
  have hp09 : decEvAgentWorking (fields ++ extra) = decEvAgentWorking fields := by
    simp only [decEvAgentWorking, reqField, optField, e_subid, e_agentid, e_tasksum]
  have hp10 : decEvAgentStatusChanged (fields ++ extra) = decEvAgentStatusChanged fields := by
    simp only [decEvAgentStatusChanged, reqField, optField, e_subid, e_agentid, e_status]
  have hp11 : decEvAgentMessage (fields ++ extra) = decEvAgentMessage fields := by
    simp only [decEvAgentMessage, reqField, optField, e_subid, e_agentid, e_content,
      e_streaming, e_msgtype]
  have hp12 : decEvAgentComplete (fields ++ extra) = decEvAgentComplete fields := by
    simp only [decEvAgentComplete, reqField, optField, e_subid, e_agentid, e_result]
  have hp13 : decEvAgentTerminated (fields ++ extra) = decEvAgentTerminated fields := by
    simp only [decEvAgentTerminated, reqField, optField, e_subid, e_agentid, e_reason]
  have hp14 : decEvToolCallStart (fields ++ extra) = decEvToolCallStart fields := by
    simp only [decEvToolCallStart, reqField, optField, e_subid, e_agentid, e_callid,
      e_toolname, e_args]
  have hp15 : decEvApprovalRequired (fields ++ extra) = decEvApprovalRequired fields := by
    simp only [decEvApprovalRequired, reqField, optField, e_subid, e_agentid, e_callid,
      e_toolname, e_args, e_descr, e_risk]
  have hp16 : decEvToolCallComplete (fields ++ extra) = decEvToolCallComplete fields := by
    simp only [decEvToolCallComplete, reqField, optField, e_subid, e_agentid, e_callid,
      e_toolname, e_output, e_duration]
  have hp17 : decEvToolCallFailed (fields ++ extra) = decEvToolCallFailed fields := by
    simp only [decEvToolCallFailed, reqField, optField, e_subid, e_agentid, e_callid,
      e_toolname, e_error]
  have hp18 : decEvHierarchyUpdated (fields ++ extra) = decEvHierarchyUpdated fields := by
    simp only [decEvHierarchyUpdated, reqField, optField, e_subid, e_root]
  have hp19 : decEvCheckpointSaved (fields ++ extra) = decEvCheckpointSaved fields := by
    simp only [decEvCheckpointSaved, reqField, optField, e_subid, e_ckpt, e_name, e_timestamp]
  have hp20 : decEvCheckpointRestored (fields ++ extra) = decEvCheckpointRestored fields := by
    simp only [decEvCheckpointRestored, reqField, optField, e_subid, e_ckpt]
  have hp21 : decEvCheckpointList (fields ++ extra) = decEvCheckpointList fields := by
    simp only [decEvCheckpointList, reqField, optField, e_subid, e_ckpts]
  have hp22 : decEvPlanModeChanged (fields ++ extra) = decEvPlanModeChanged fields := by
    simp only [decEvPlanModeChanged, reqField, optField, e_subid, e_enabled, e_gran]
  have hp23 : decEvPlanCreated (fields ++ extra) = decEvPlanCreated fields := by
    simp only [decEvPlanCreated, reqField, optField, e_subid, e_plan]
  have hp24 : decEvWarning (fields ++ extra) = decEvWarning fields := by
    simp only [decEvWarning, reqField, optField, e_subid, e_message, e_details]
  have hp25 : decEvError (fields ++ extra) = decEvError fields := by
    simp only [decEvError, reqField, optField, e_subid, e_message, e_recov]
  have hp26 : decEvUsageUpdate (fields ++ extra) = decEvUsageUpdate fields := by
    simp only [decEvUsageUpdate, reqField, optField, e_subid, e_agentid, e_usage]
  simp only [decodeEvent, decodeEventFields, e_type, hp01, hp02, hp03, hp04, hp05, hp06,
    hp07, hp08, hp09, hp10, hp11, hp12, hp13, hp14, hp15, hp16, hp17, hp18, hp19, hp20,
    hp21, hp22, hp23, hp24, hp25, hp26]

-- === Tag naming ===

/-- One step of serde's RenameRule::SnakeCase: lowercase every character and
put an underscore before each uppercase character that is not the first. -/
def snakeCaseStep (acc : String) (c : Char) : String :=
  if c.isUpper then (if acc = "" then acc else acc.push '_').push c.toLower
  else acc.push c

/-- serde's snake_case rename rule applied to a variant name. -/
def snakeCaseOf (s : String) : String :=
  s.toList.foldl snakeCaseStep ""

/-- The Rust variant name of a Command, as written in the source. -/
def Op.variantName : Op → String
  | .configureSession .. => "ConfigureSession"
  | .userInput .. => "UserInput"
  | .interrupt .. => "Interrupt"
  | .execApproval .. => "ExecApproval"
  | .mcpApproval .. => "McpApproval"
  | .spawnAgent .. => "SpawnAgent"
  | .terminateAgent .. => "TerminateAgent"
  | .routeMessage .. => "RouteMessage"
  | .saveCheckpoint .. => "SaveCheckpoint"
  | .restoreCheckpoint .. => "RestoreCheckpoint"
  | .listCheckpoints .. => "ListCheckpoints"
  | .undo .. => "Undo"
  | .togglePlanMode .. => "TogglePlanMode"
  | .updateSettings .. => "UpdateSettings"

/-- The Rust variant name of an Event, as written in the source. -/
def Event.variantName : Event → String
  | .sessionConfigured .. => "SessionConfigured"
  | .settingsUpdated .. => "SettingsUpdated"
  | .taskStarted .. => "TaskStarted"
  | .turnComplete .. => "TurnComplete"
  | .taskComplete .. => "TaskComplete"
  | .taskFailed .. => "TaskFailed"
  | .taskInterrupted .. => "TaskInterrupted"
  | .agentSpawned .. => "AgentSpawned"
  | .agentWorking .. => "AgentWorking"
  | .agentStatusChanged .. => "AgentStatusChanged"
  | .agentMessage .. => "AgentMessage"
  | .agentComplete .. => "AgentComplete"
  | .agentTerminated .. => "AgentTerminated"
  | .toolCallStart .. => "ToolCallStart"
  | .approvalRequired .. => "ApprovalRequired"
  | .toolCallComplete .. => "ToolCallComplete"
  | .toolCallFailed .. => "ToolCallFailed"
  | .hierarchyUpdated .. => "HierarchyUpdated"
  | .checkpointSaved .. => "CheckpointSaved"
  | .checkpointRestored .. => "CheckpointRestored"
  | .checkpointList .. => "CheckpointList"
  | .planModeChanged .. => "PlanModeChanged"
  | .planCreated .. => "PlanCreated"
  | .warning .. => "Warning"
  | .error .. => "Error"
  | .usageUpdate .. => "UsageUpdate"

/-- The recognized Command tag strings, in dispatch order. -/
def opTags : List String :=
  ["configure_session", "user_input", "interrupt", "exec_approval", "mcp_approval",
   "spawn_agent", "terminate_agent", "route_message", "save_checkpoint",
   "restore_checkpoint", "list_checkpoints", "undo", "toggle_plan_mode",
   "update_settings"]

-- === Claim theorems ===

/-- C1 counterexample: the round-trip is not universal. A ToolCallComplete
event whose tool output carries data = Some(Value::Null) encodes that slot
as JSON null, which decodes back to None; and a UsageUpdate event whose
estimated cost is Some of a NaN (bit pattern 0x7FF8000000000000) encodes
that slot as JSON null - serde_json writes null for non-finite doubles -
which likewise decodes back to None. In both cases decoding the encoding
does not return the original value. -/
theorem c1_counterexample :
    (decodeEvent (encodeEvent (Event.toolCallComplete ⟨"s"⟩ ⟨⟨"a"⟩⟩ ⟨⟨"c"⟩⟩ "shell"
        ⟨true, "out", some Json.null, Option.none⟩ 5)) ≠
      Except.ok (Event.toolCallComplete ⟨"s"⟩ ⟨⟨"a"⟩⟩ ⟨⟨"c"⟩⟩ "shell"
        ⟨true, "out", some Json.null, Option.none⟩ 5)) ∧
    (decodeEvent (encodeEvent (Event.usageUpdate ⟨"s"⟩ Option.none
        ⟨1000, 500, 1500, some ⟨0x7FF8000000000000⟩⟩)) ≠
      Except.ok (Event.usageUpdate ⟨"s"⟩ Option.none
        ⟨1000, 500, 1500, some ⟨0x7FF8000000000000⟩⟩)) := by
  constructor
  · intro hcontra
    have h2 : (Except.ok (Event.toolCallComplete ⟨"s"⟩ ⟨⟨"a"⟩⟩ ⟨⟨"c"⟩⟩ "shell"
        ⟨true, "out", Option.none, Option.none⟩ 5) : DecRes Event) =
        Except.ok (Event.toolCallComplete ⟨"s"⟩ ⟨⟨"a"⟩⟩ ⟨⟨"c"⟩⟩ "shell"
        ⟨true, "out", some Json.null, Option.none⟩ 5) := hcontra
    simp at h2
  · intro hcontra
    have h2 : (Except.ok (Event.usageUpdate ⟨"s"⟩ Option.none
        ⟨1000, 500, 1500, Option.none⟩) : DecRes Event) =
        Except.ok (Event.usageUpdate ⟨"s"⟩ Option.none
        ⟨1000, 500, 1500, some ⟨0x7FF8000000000000⟩⟩) := hcontra
    simp at h2

/-- C1 (amended): JSON-decoding the JSON encoding of any Op value returns
the value itself, and likewise for any Event value provided no payload
slot collapses to JSON null on encoding - that is, ToolCallComplete's
optional output data is not an explicit Value::Null, and the optional
estimated cost reachable through TaskComplete and UsageUpdate is a finite
double (serde_json writes null for Some(Null) and for non-finite floats,
and null decodes into an Option as None). -/
theorem c1_roundtrip :
    (∀ op : Op, decodeOp (encodeOp op) = .ok op) ∧
    (∀ e : Event, noNullCollapse e → decodeEvent (encodeEvent e) = .ok e) :=
  ⟨op_roundtrip, event_roundtrip⟩

/-- C1 witness: the round-trip theorem applied at concrete values of both
unions, the Event hypothesis discharged, once trivially and once at a
finite cost value. -/
theorem c1_roundtrip_witness :
    decodeOp (encodeOp (Op.undo ⟨"w"⟩)) = .ok (Op.undo ⟨"w"⟩) ∧
    decodeEvent (encodeEvent (Event.error ⟨"w"⟩ "boom" false)) =
      .ok (Event.error ⟨"w"⟩ "boom" false) ∧
    decodeEvent (encodeEvent (Event.usageUpdate ⟨"w"⟩ Option.none
        ⟨1000, 500, 1500, some ⟨0x3FE0000000000000⟩⟩)) =
      .ok (Event.usageUpdate ⟨"w"⟩ Option.none
        ⟨1000, 500, 1500, some ⟨0x3FE0000000000000⟩⟩) :=
  ⟨c1_roundtrip.1 _, c1_roundtrip.2 _ (by trivial), c1_roundtrip.2 _ (by rfl)⟩

/-- C2: decoding a well-formed JSON object whose type field is a string
that is not a recognized Op tag fails with exactly
ProtocolError::UnknownOperation carrying that tag. -/
theorem c2_unknown_operation (fields : List (String × Json)) (t : String)
    (htag : jLookup fields "type" = some (.str t)) (hunk : t ∉ opTags) :
    decodeOp (.obj fields) = .error (.unknownOperation t) := by
  simp only [opTags, List.mem_cons, List.not_mem_nil, or_false, not_or] at hunk
  obtain ⟨h01, h02, h03, h04, h05, h06, h07, h08, h09, h10, h11, h12, h13, h14⟩ := hunk
  simp [decodeOp, decodeOpFields, htag, h01, h02, h03, h04, h05, h06, h07, h08, h09,
    h10, h11, h12, h13, h14]

/-- C2 witness: the unknown-tag theorem at the spec's concrete example
object. -/
theorem c2_unknown_operation_witness :
    decodeOp (Json.obj [("type", Json.str "not_a_real_op"), ("sub_id", Json.str "s")]) =
      .error (.unknownOperation "not_a_real_op") :=
  c2_unknown_operation _ _ rfl (by decide)

/-- C3 counterexample: the documented per-field defaults are not all wired
to the decoder. A SessionConfig payload without "sandbox" takes the derived
Default sandbox whose enabled flag is false, not true; an agent_message
payload without "message_type" and an approval_required payload without
"risk" fail to decode instead of taking Text and Medium. -/
theorem c3_counterexample :
    (decSessionConfig (Json.obj [])).map (fun c => c.sandbox.enabled) = .ok false ∧
    decodeEvent (Json.obj [("type", Json.str "agent_message"), ("sub_id", Json.str "s"),
        ("agent_id", Json.str "a"), ("content", Json.str "hi"),
        ("streaming", Json.bool false)]) =
      .error (.deserializationError "missing field message_type") ∧
    decodeEvent (Json.obj [("type", Json.str "approval_required"), ("sub_id", Json.str "s"),
        ("agent_id", Json.str "a"), ("call_id", Json.str "c"),
        ("tool_name", Json.str "shell"), ("arguments", Json.null),
        ("description", Json.str "d")]) =
      .error (.deserializationError "missing field risk") :=
  ⟨rfl, rfl, rfl⟩

/-- C3 (amended): a SessionConfig payload without "sandbox" populates the
derived-Default SandboxConfig, whose enabled flag is false; an AgentMessage
payload must carry "message_type" and an ApprovalRequired payload must
carry "risk" or decoding fails; the defaults Text and Medium are the
type-level Default values but are not attached to those event fields. -/
theorem c3_amended :
    ((decSessionConfig (Json.obj [])).map (fun c => c.sandbox) = .ok SandboxConfig.default ∧
      SandboxConfig.default.enabled = false) ∧
    (∀ s a c st, decodeEvent (Json.obj [("type", Json.str "agent_message"),
        ("sub_id", Json.str s), ("agent_id", Json.str a), ("content", Json.str c),
        ("streaming", Json.bool st)]) =
      .error (.deserializationError "missing field message_type")) ∧
    (∀ s a c tn d, decodeEvent (Json.obj [("type", Json.str "approval_required"),
        ("sub_id", Json.str s), ("agent_id", Json.str a), ("call_id", Json.str c),
        ("tool_name", Json.str tn), ("arguments", Json.null),
        ("description", Json.str d)]) =
      .error (.deserializationError "missing field risk")) ∧
    (MessageType.default = .text ∧ RiskLevel.default = .medium) :=
  ⟨⟨rfl, rfl⟩, fun _ _ _ _ => rfl, fun _ _ _ _ _ => rfl, rfl, rfl⟩

/-- C4: decoding the empty object as SessionConfig succeeds with
max_parallel_agents = 8 and approval_mode = RiskBased, and decoding the
empty object as SandboxConfig succeeds with enabled = true and
network = None. -/
theorem c4_empty_object_defaults :
    (decSessionConfig (Json.obj [])).map (fun c => c.max_parallel_agents) = .ok 8 ∧
    (decSessionConfig (Json.obj [])).map (fun c => c.approval_mode) = .ok .riskBased ∧
    (decSandboxConfig (Json.obj [])).map (fun c => c.enabled) = .ok true ∧
    (decSandboxConfig (Json.obj [])).map (fun c => c.network) = .ok .none :=
  ⟨rfl, rfl, rfl, rfl⟩

/-- C5: encoding any Op or Event produces an object whose leading "type"
field is exactly the snake_case rendering of the Rust variant name, with
the payload fields flattened into the same object after it. -/
theorem c5_tag_stability :
    (∀ op : Op, ∃ payload, encodeOp op =
        Json.obj (("type", Json.str (snakeCaseOf (Op.variantName op))) :: payload)) ∧
    (∀ e : Event, ∃ payload, encodeEvent e =
        Json.obj (("type", Json.str (snakeCaseOf (Event.variantName e))) :: payload)) := by
  constructor
  · intro op
    cases op <;> exact ⟨_, rfl⟩
  · intro e
    cases e <;> exact ⟨_, rfl⟩

/-- C6: is_error holds exactly on the Error and TaskFailed variants and
requires_attention exactly on ApprovalRequired, Error and Warning; both
depend only on which variant the event is. -/
theorem c6_predicates (e : Event) :
    (e.is_error = true ↔ (e.variantName = "Error" ∨ e.variantName = "TaskFailed")) ∧
    (e.requires_attention = true ↔
      (e.variantName = "ApprovalRequired" ∨ e.variantName = "Error" ∨
       e.variantName = "Warning")) := by
  cases e <;> simp [Event.is_error, Event.requires_attention, Event.variantName]

/-- C7 counterexample: sub_id() is not always non-empty. An Op built with
SubmissionId::from_string of the empty string yields an empty correlation
identifier. -/
theorem c7_counterexample :
    (Op.sub_id (Op.interrupt (SubmissionId.from_string "") Option.none)).as_str = "" := rfl

/-- C7 (amended): for every variant of both unions, sub_id() returns
exactly the SubmissionId stored in the variant, so the caller never matches
on the tag; the result is non-empty precisely when the stored identifier
is, which holds for identifiers from new() (canonical 36-character UUID
strings) but not for from_string of an empty string, which from_string
keeps verbatim. -/
theorem c7_amended :
    (∀ s c, Op.sub_id (.configureSession s c) = s) ∧
    (∀ s p i ctx k, Op.sub_id (.userInput s p i ctx k) = s) ∧
    (∀ s t, Op.sub_id (.interrupt s t) = s) ∧
    (∀ s c a m, Op.sub_id (.execApproval s c a m) = s) ∧
    (∀ s c a, Op.sub_id (.mcpApproval s c a) = s) ∧
    (∀ s c p t, Op.sub_id (.spawnAgent s c p t) = s) ∧
    (∀ s a r, Op.sub_id (.terminateAgent s a r) = s) ∧
    (∀ s a c, Op.sub_id (.routeMessage s a c) = s) ∧
    (∀ s n, Op.sub_id (.saveCheckpoint s n) = s) ∧
    (∀ s c, Op.sub_id (.restoreCheckpoint s c) = s) ∧
    (∀ s, Op.sub_id (.listCheckpoints s) = s) ∧
    (∀ s, Op.sub_id (.undo s) = s) ∧
    (∀ s e g, Op.sub_id (.togglePlanMode s e g) = s) ∧
    (∀ s st, Op.sub_id (.updateSettings s st) = s) ∧
    (∀ s i c, Event.sub_id (.sessionConfigured s i c) = s) ∧
    (∀ s st, Event.sub_id (.settingsUpdated s st) = s) ∧
    (∀ s t p, Event.sub_id (.taskStarted s t p) = s) ∧
    (∀ s t n c, Event.sub_id (.turnComplete s t n c) = s) ∧
    (∀ s t r, Event.sub_id (.taskComplete s t r) = s) ∧
    (∀ s t e, Event.sub_id (.taskFailed s t e) = s) ∧
    (∀ s t, Event.sub_id (.taskInterrupted s t) = s) ∧
    (∀ s a p r c, Event.sub_id (.agentSpawned s a p r c) = s) ∧
    (∀ s a t, Event.sub_id (.agentWorking s a t) = s) ∧
    (∀ s a st, Event.sub_id (.agentStatusChanged s a st) = s) ∧
    (∀ s a c b m, Event.sub_id (.agentMessage s a c b m) = s) ∧
    (∀ s a r, Event.sub_id (.agentComplete s a r) = s) ∧
    (∀ s a r, Event.sub_id (.agentTerminated s a r) = s) ∧
    (∀ s a c t g, Event.sub_id (.toolCallStart s a c t g) = s) ∧
    (∀ s a c t g d r, Event.sub_id (.approvalRequired s a c t g d r) = s) ∧
    (∀ s a c t o d, Event.sub_id (.toolCallComplete s a c t o d) = s) ∧
    (∀ s a c t e, Event.sub_id (.toolCallFailed s a c t e) = s) ∧
    (∀ s r, Event.sub_id (.hierarchyUpdated s r) = s) ∧
    (∀ s c n t, Event.sub_id (.checkpointSaved s c n t) = s) ∧
    (∀ s c, Event.sub_id (.checkpointRestored s c) = s) ∧
    (∀ s c, Event.sub_id (.checkpointList s c) = s) ∧
    (∀ s e g, Event.sub_id (.planModeChanged s e g) = s) ∧
    (∀ s p, Event.sub_id (.planCreated s p) = s) ∧
    (∀ s m d, Event.sub_id (.warning s m d) = s) ∧
    (∀ s m r, Event.sub_id (.error s m r) = s) ∧
    (∀ s a u, Event.sub_id (.usageUpdate s a u) = s) ∧
    (∀ s, (SubmissionId.from_string s).as_str = s) := by
  repeat' apply And.intro
  all_goals intros
  all_goals rfl

/-- C8: decoding tolerates unknown extra fields. Appending fields whose
keys are outside the decoder's schema leaves a successful decode unchanged,
for both unions. -/
theorem c8_unknown_fields_ignored :
    (∀ fields extra (op : Op), (∀ p ∈ extra, p.1 ∉ opKeys) →
      decodeOp (Json.obj fields) = .ok op →
      decodeOp (Json.obj (fields ++ extra)) = .ok op) ∧
    (∀ fields extra (e : Event), (∀ p ∈ extra, p.1 ∉ eventKeys) →
      decodeEvent (Json.obj fields) = .ok e →
      decodeEvent (Json.obj (fields ++ extra)) = .ok e) := by
  constructor
  · intro fields extra op hdisj hok
    rw [decodeOp_extra_fields fields extra hdisj, hok]
  · intro fields extra e hdisj hok
    rw [decodeEvent_extra_fields fields extra hdisj, hok]

/-- C8 witness: an undo command decoded unchanged in the presence of an
unknown extra field. -/
theorem c8_unknown_fields_witness :
    decodeOp (Json.obj ([("type", Json.str "undo"), ("sub_id", Json.str "s")] ++
        [("shiny_new_field", Json.bool true)])) = .ok (Op.undo ⟨"s"⟩) :=
  c8_unknown_fields_ignored.1 _ _ _
    (by
      intro p hp
      simp only [List.mem_singleton] at hp
      subst hp
      decide)
    rfl

/-- C9: an error event payload without "recoverable" decodes with
recoverable = false, and a warning payload without "details" decodes with
details = None. -/
theorem c9_system_event_defaults :
    (∀ s m, decodeEvent (Json.obj [("type", Json.str "error"), ("sub_id", Json.str s),
        ("message", Json.str m)]) = .ok (.error ⟨s⟩ m false)) ∧
    (∀ s m, decodeEvent (Json.obj [("type", Json.str "warning"), ("sub_id", Json.str s),
        ("message", Json.str m)]) = .ok (.warning ⟨s⟩ m Option.none)) :=
  ⟨fun _ _ => rfl, fun _ _ => rfl⟩

/-- C10: the convenience constructors fix their payloads: approve_exec
builds ExecApproval with approved = true and no modified command, deny_exec
the same with approved = false, user_input builds UserInput with no images,
the default context and no checkpoint, and interrupt builds Interrupt with
no task id. -/
theorem c10_constructors (fresh : SubmissionId) (c : CallId) (p : String) :
    Op.approve_exec fresh c = .execApproval fresh c true Option.none ∧
    Op.deny_exec fresh c = .execApproval fresh c false Option.none ∧
    Op.user_input fresh p = .userInput fresh p [] TaskContext.default Option.none ∧
    Op.interrupt' fresh = .interrupt fresh Option.none ∧
    TaskContext.default = ⟨Option.none, [], [], []⟩ :=
  ⟨rfl, rfl, rfl, rfl, rfl⟩

end Warhorn
